import Mathlib

/-!
Casa-best: swipe ledger, engagement counters, trending and recommendations

A shallow embedding of the backend's swipe engine
(`backend/controllers/swipeController.js`, `backend/models/Swipe.js`,
`backend/models/Product.js`, `backend/models/Wishlist.js`,
`backend/controllers/wishlistController.js`, `backend/middleware/auth.js`,
`backend/middleware/validation.js`, `backend/utils/sms.js`).

Conventions of the embedding:

* the document store is an explicit `State`; every controller is a function
  from a state (and the request) to the next state and the HTTP response;
* ObjectIds are natural numbers; a fresh `_id` is drawn from `State.nextId`;
* JavaScript numbers that the code only adds, subtracts and compares
  (counters, prices, millisecond timestamps) are integers;
* `Date.now()` is the explicit argument `now` (milliseconds);
* a missing JSON field / `undefined` is `none`.
-/

namespace Casa

/-! ## Data model -/

/-- The `swipeContext` sub-document of a swipe, also the shape of the `context`
object of a request body (absent fields are `none`). -/
structure SwipeContext where
  source : Option String
  position : Option Int
  sessionId : Option String
  timeSpent : Option Int
  deriving DecidableEq, Repr

/-- The `deviceInfo` sub-document, read from the request headers. -/
structure DeviceInfo where
  platform : Option String
  userAgent : Option String
  screenSize : Option String
  deriving DecidableEq, Repr

/-- A document of the `Swipe` collection (`models/Swipe.js`). -/
structure Swipe where
  _id : Nat
  user : Nat
  product : Nat
  action : String
  swipeContext : SwipeContext
  deviceInfo : DeviceInfo
  createdAt : Int
  deriving DecidableEq, Repr

/-- The fields of a `Product` document that the swipe engine reads or writes
(`models/Product.js`); `priceCurrent` is `price.current`. -/
structure Product where
  _id : Nat
  brand : String
  category : String
  colors : List String
  priceCurrent : Int
  isActive : Bool
  inStock : Bool
  totalViews : Int
  totalLikes : Int
  totalDislikes : Int
  totalWishlisted : Int
  createdAt : Int
  deriving DecidableEq, Repr

/-- The `preferences.priceRange` sub-document of a user. -/
structure PriceRange where
  min : Option Int
  max : Option Int
  deriving DecidableEq, Repr

/-- The `preferences` sub-document of a user (only the part the engine reads). -/
structure Preferences where
  priceRange : Option PriceRange
  deriving DecidableEq, Repr

/-- The fields of a `User` document that the swipe engine reads or writes
(`models/User.js`). -/
structure User where
  _id : Nat
  preferences : Option Preferences
  totalSwipes : Int
  totalLikes : Int
  isActive : Bool
  isBlocked : Bool
  deriving DecidableEq, Repr

/-- An element of `Wishlist.items` (`models/Wishlist.js`). -/
structure WishlistItem where
  product : Nat
  addedAt : Int
  priority : Int
  notes : String
  priceWhenAdded : Option Int
  notifyOnPriceChange : Bool
  notifyOnRestock : Bool
  deriving DecidableEq, Repr

/-- A document of the `Wishlist` collection. -/
structure Wishlist where
  user : Nat
  items : List WishlistItem
  deriving DecidableEq, Repr

/-- The options object handed to `wishlist.addItem`. -/
structure WishlistOptions where
  priority : Option Int
  notes : Option String
  priceWhenAdded : Option Int
  notifyOnPriceChange : Option Bool
  notifyOnRestock : Option Bool
  deriving DecidableEq, Repr

/-- The document store: the four collections and the next fresh ObjectId. -/
structure State where
  swipes : List Swipe
  products : List Product
  users : List User
  wishlists : List Wishlist
  nextId : Nat
  deriving DecidableEq, Repr

/-- An HTTP response: `res.status(s).json(...)` of a controller, or the
`success: false, message` body produced for a thrown error. -/
inductive Response (α : Type) where
  | success (status : Nat) (message : String) (data : α)
  | failure (status : Nat) (message : String)
  deriving DecidableEq, Repr

/-- Modelled from the spec: `middleware/errorHandler.js` (`AppError`,
`catchAsync`) is not part of the sources. Per section 7 of the specification a
thrown `AppError(message, status)` is answered with that status and message. -/
def appError {α : Type} (message : String) (status : Nat) : Response α :=
  .failure status message

/-- Modelled from the spec: `middleware/errorHandler.js` is not part of the
sources. Per section 7 an unexpected exception (here: a `TypeError`) is caught
at the boundary and answered with status 500, its detail suppressed. -/
def internalError {α : Type} : Response α :=
  .failure 500 "Internal server error"

/-- The HTTP status of a response. -/
def Response.status {α : Type} : Response α → Nat
  | .success s _ _ => s
  | .failure s _ => s

/-- A response is successful when the controller reached its `res.json`. -/
def Response.isSuccess {α : Type} : Response α → Bool
  | .success _ _ _ => true
  | .failure _ _ => false

/-! ## Store primitives -/

/-- The query `Product.findById(productId)`. -/
def findProductById (st : State) (productId : Nat) : Option Product :=
  st.products.find? (fun p => p._id == productId)

/-- The query `User.findById(userId)`. -/
def findUserById (st : State) (userId : Nat) : Option User :=
  st.users.find? (fun u => u._id == userId)

/-- The call `product.save()`: the stored document with this `_id` is replaced. -/
def saveProduct (st : State) (product : Product) : State :=
  { st with products := st.products.map (fun p => if p._id == product._id then product else p) }

/-- The call `user.save()`. -/
def saveUser (st : State) (user : User) : State :=
  { st with users := st.users.map (fun u => if u._id == user._id then user else u) }

/-- The call `swipe.save()` on a swipe that is already stored. -/
def saveSwipe (st : State) (swipe : Swipe) : State :=
  { st with swipes := st.swipes.map (fun s => if s._id == swipe._id then swipe else s) }

/-- The query `Swipe.findOne` on `user` and `product`. -/
def findSwipe (st : State) (userId productId : Nat) : Option Swipe :=
  st.swipes.find? (fun s => s.user == userId && s.product == productId)

/-- The head of a list sorted by `createdAt` descending: the swipe with the
greatest `createdAt` (among equal timestamps the store order decides; the
earliest stored one is taken). -/
def mostRecent : List Swipe → Option Swipe
  | [] => none
  | s :: rest =>
    match mostRecent rest with
    | none => some s
    | some t => if s.createdAt < t.createdAt then some t else some s

/-- The query `Swipe.findOne` on `user`, sorted by `createdAt` descending. -/
def findLastSwipe (st : State) (userId : Nat) : Option Swipe :=
  mostRecent (st.swipes.filter (fun s => s.user == userId))

/-- The call `Swipe.findByIdAndDelete(id)`: at most one document is removed. -/
def findByIdAndDelete (st : State) (id : Nat) : State :=
  { st with swipes := st.swipes.eraseP (fun s => s._id == id) }

/-! ## `middleware/auth.js` -/

/-- The middleware `authenticate`, after the token has been verified and decoded
to `userId`: it loads the user and refuses unknown, deactivated and blocked
accounts with a status and a message; otherwise the user becomes `req.user`.
(The un-awaited `updateLastActive` touches no field of the model.) -/
def authenticate (st : State) (userId : Nat) : Except (Nat × String) User :=
  match findUserById st userId with
  | none => .error (401, "Invalid token. User not found.")
  | some user =>
    if !user.isActive then .error (401, "Account is deactivated.")
    else if user.isBlocked then .error (401, "Account is blocked.")
    else .ok user

/-! ## `models/Product.js` -/

/-- The method `productSchema.methods.updateEngagement(type, increment)`, before
the save; `type` is `none` for JavaScript `null`. -/
def updateEngagement (product : Product) (type : Option String) (increment : Int) : Product :=
  if type = some "like" then { product with totalLikes := product.totalLikes + increment }
  else if type = some "dislike" then
    { product with totalDislikes := product.totalDislikes + increment }
  else if type = some "wishlist" then
    { product with totalWishlisted := product.totalWishlisted + increment }
  else product

/-! ## `controllers/swipeController.js` -/

/-- The constant `validActions` of `recordSwipe`. -/
def validActions : List String := ["like", "dislike", "super_like", "skip"]

/-- The helper `getEngagementType`. -/
def getEngagementType (action : String) : Option String :=
  if action = "like" ∨ action = "super_like" then some "like"
  else if action = "dislike" then some "dislike"
  else none

/-- The test `action === 'like' || action === 'super_like'`. -/
def isLikeAction (action : String) : Bool :=
  action == "like" || action == "super_like"

/-- The helper `updateProductEngagement(productId, oldAction, newAction)`. -/
def updateProductEngagement (st : State) (productId : Nat) (oldAction newAction : String) :
    State :=
  match findProductById st productId with
  | none => st
  | some product =>
    let product :=
      if isLikeAction oldAction then
        { product with totalLikes := max 0 (product.totalLikes - 1) }
      else if oldAction = "dislike" then
        { product with totalDislikes := max 0 (product.totalDislikes - 1) }
      else product
    let product :=
      if isLikeAction newAction then { product with totalLikes := product.totalLikes + 1 }
      else if newAction = "dislike" then
        { product with totalDislikes := product.totalDislikes + 1 }
      else product
    saveProduct st product

/-- The helper `updateUserStats(userId, oldAction, newAction)`. -/
def updateUserStats (st : State) (userId : Nat) (oldAction newAction : String) : State :=
  match findUserById st userId with
  | none => st
  | some user =>
    let user :=
      if isLikeAction oldAction && !isLikeAction newAction then
        { user with totalLikes := max 0 (user.totalLikes - 1) }
      else if !isLikeAction oldAction && isLikeAction newAction then
        { user with totalLikes := user.totalLikes + 1 }
      else user
    saveUser st user

/-- The object spread of `existingSwipe.swipeContext` and `context`: a field
present in the request overrides the stored one. -/
def mergeContext (old context : SwipeContext) : SwipeContext :=
  { source := context.source.orElse (fun _ => old.source)
    position := context.position.orElse (fun _ => old.position)
    sessionId := context.sessionId.orElse (fun _ => old.sessionId)
    timeSpent := context.timeSpent.orElse (fun _ => old.timeSpent) }

/-- The expression `context.source || 'home'` (the empty string is falsy). -/
def sourceOrHome (source : Option String) : String :=
  match source with
  | some s => if s = "" then "home" else s
  | none => "home"

/-- The document `new Swipe(...)` built by `recordSwipe` for a first swipe;
`createdAt` takes its schema default `Date.now`. -/
def newSwipe (id : Nat) (now : Int) (userId productId : Nat) (action : String)
    (context : SwipeContext) (headers : DeviceInfo) : Swipe :=
  { _id := id
    user := userId
    product := productId
    action := action
    swipeContext :=
      { source := some (sourceOrHome context.source)
        position := context.position
        sessionId := context.sessionId
        timeSpent := context.timeSpent }
    deviceInfo := headers
    createdAt := now }

/-- The `data` object of the `recordSwipe` response. -/
structure SwipeData where
  swipe : Swipe
  isUpdate : Bool
  deriving DecidableEq, Repr

/-- The controller `recordSwipe` (behind `authenticate`): `productId`, `action`
and `context` are the request body, `headers` the three device headers. -/
def recordSwipe (st : State) (now : Int) (userId productId : Nat) (action : String)
    (context : SwipeContext) (headers : DeviceInfo) : State × Response SwipeData :=
  match authenticate st userId with
  | .error r => (st, .failure r.1 r.2)
  | .ok user =>
    if !validActions.contains action then (st, appError "Invalid swipe action" 400)
    else
      match findProductById st productId with
      | none => (st, appError "Product not found" 404)
      | some product =>
        if !product.isActive then (st, appError "Product is no longer available" 400)
        else
          match findSwipe st userId productId with
          | some found =>
            -- the stored action is overwritten before the helpers read it
            let existingSwipe : Swipe :=
              { found with
                action := action
                swipeContext := mergeContext found.swipeContext context }
            let st := saveSwipe st existingSwipe
            let st := updateProductEngagement st productId existingSwipe.action action
            let st := updateUserStats st userId existingSwipe.action action
            (st, .success 200 "Swipe updated successfully" ⟨existingSwipe, true⟩)
          | none =>
            let swipe := newSwipe st.nextId now userId productId action context headers
            let st := { st with swipes := st.swipes ++ [swipe], nextId := st.nextId + 1 }
            let st := saveProduct st (updateEngagement product (getEngagementType action) 1)
            let user := { user with totalSwipes := user.totalSwipes + 1 }
            let user :=
              if isLikeAction action then { user with totalLikes := user.totalLikes + 1 }
              else user
            let st := saveUser st user
            (st, .success 201 "Swipe recorded successfully" ⟨swipe, false⟩)

/-- The `data` object of the `undoLastSwipe` response: the deleted swipe with
its populated product. -/
structure UndoData where
  undoneSwipe : Swipe
  product : Product
  deriving DecidableEq, Repr

/-- The controller `undoLastSwipe` (behind `authenticate`). The last swipe is
read with `.populate('product')`; when the product document is gone the
populated field is `null` and `lastSwipe.product._id` throws after the swipe
has been deleted. -/
def undoLastSwipe (st : State) (now : Int) (userId : Nat) : State × Response UndoData :=
  match authenticate st userId with
  | .error r => (st, .failure r.1 r.2)
  | .ok user =>
    match findLastSwipe st userId with
    | none => (st, appError "No swipes to undo" 400)
    | some lastSwipe =>
      let populated := findProductById st lastSwipe.product
      let fiveMinutesAgo := now - 5 * 60 * 1000
      if lastSwipe.createdAt < fiveMinutesAgo then (st, appError "Swipe is too old to undo" 400)
      else
        let st := findByIdAndDelete st lastSwipe._id
        match populated with
        | none => (st, internalError)
        | some populatedProduct =>
          let st :=
            match findProductById st populatedProduct._id with
            | some product =>
              saveProduct st (updateEngagement product (getEngagementType lastSwipe.action) (-1))
            | none => st
          let user := { user with totalSwipes := max 0 (user.totalSwipes - 1) }
          let user :=
            if isLikeAction lastSwipe.action then
              { user with totalLikes := max 0 (user.totalLikes - 1) }
            else user
          let st := saveUser st user
          (st, .success 200 "Last swipe undone successfully" ⟨lastSwipe, populatedProduct⟩)

/-! ## `models/Wishlist.js` and `controllers/wishlistController.js` -/

/-- The JavaScript expression `x || d` on an optional number (0 is falsy). -/
def orNumber (x : Option Int) (d : Int) : Int :=
  match x with
  | some v => if v = 0 then d else v
  | none => d

/-- The JavaScript expression `x || d` on an optional string ('' is falsy). -/
def orString (x : Option String) (d : String) : String :=
  match x with
  | some v => if v = "" then d else v
  | none => d

/-- A product id as a wishlist request carries it: the text of a 24-digit hex
string. Queries and stored references cast the text to an ObjectId, and the
cast ignores the case of the hex digits: `value` is that ObjectId. `lowerCase`
says whether the text is written with lower-case digits only, that is, whether
it is the text that `toString()` gives for that ObjectId. -/
structure RequestId where
  value : Nat
  lowerCase : Bool
  deriving DecidableEq, Repr

/-- A numeral stands for the id written in lower case, the text of the ObjectId. -/
instance (n : Nat) : OfNat RequestId n := ⟨⟨n, true⟩⟩

/-- The comparison `item.product.toString() === productId.toString()` of the
wishlist methods: the stored ObjectId prints in lower case, so the two texts
are equal exactly when the request text is cast to the stored id and is itself
written in lower case. -/
def sameIdText (stored : Nat) (productId : RequestId) : Bool :=
  stored == productId.value && productId.lowerCase

/-- The method `wishlist.hasProduct(productId)`. -/
def Wishlist.hasProduct (w : Wishlist) (productId : RequestId) : Bool :=
  w.items.any (fun item => sameIdText item.product productId)

/-- The update that `addItem` applies to the first item found for the product. -/
def updateFirstItem (productId : RequestId) (options : WishlistOptions) :
    List WishlistItem → List WishlistItem
  | [] => []
  | item :: rest =>
    if sameIdText item.product productId then
      { item with
        priority := orNumber options.priority item.priority
        notes := orString options.notes item.notes
        notifyOnPriceChange := options.notifyOnPriceChange.getD item.notifyOnPriceChange
        notifyOnRestock := options.notifyOnRestock.getD item.notifyOnRestock } :: rest
    else item :: updateFirstItem productId options rest

/-- The method `wishlist.addItem(productId, options)`, before the save: the
existing item is looked up by the text comparison, and a pushed item stores the
id the text is cast to. -/
def Wishlist.addItem (w : Wishlist) (now : Int) (productId : RequestId)
    (options : WishlistOptions) : Wishlist :=
  if w.hasProduct productId then
    { w with items := updateFirstItem productId options w.items }
  else
    { w with
      items := w.items ++
        [{ product := productId.value
           addedAt := now
           priority := orNumber options.priority 0
           notes := orString options.notes ""
           priceWhenAdded := options.priceWhenAdded
           notifyOnPriceChange := options.notifyOnPriceChange.getD false
           notifyOnRestock := options.notifyOnRestock.getD false }] }

/-- The method `wishlist.removeItem(productId)`, before the save: the items
whose text differs from the request text are kept. -/
def Wishlist.removeItem (w : Wishlist) (productId : RequestId) : Wishlist :=
  { w with items := w.items.filter (fun item => !sameIdText item.product productId) }

/-- The query `Wishlist.findOne` on `user`. -/
def findWishlist (st : State) (userId : Nat) : Option Wishlist :=
  st.wishlists.find? (fun w => w.user == userId)

/-- The call `wishlist.save()` on a stored wishlist (one wishlist per user). -/
def saveWishlist (st : State) (w : Wishlist) : State :=
  { st with wishlists := st.wishlists.map (fun v => if v.user == w.user then w else v) }

/-- The static `Wishlist.findOrCreateForUser(userId)`. -/
def findOrCreateForUser (st : State) (userId : Nat) : State × Wishlist :=
  match findWishlist st userId with
  | some w => (st, w)
  | none =>
    let w : Wishlist := { user := userId, items := [] }
    ({ st with wishlists := st.wishlists ++ [w] }, w)

/-- The controller `addToWishlist` (behind `authenticate`); `productId` is the
text of the request body, cast by `Product.findById` and handed as it is to
`wishlist.addItem`. -/
def addToWishlist (st : State) (now : Int) (userId : Nat) (productId : RequestId)
    (priority : Option Int) (notes : Option String)
    (notifyOnPriceChange notifyOnRestock : Option Bool) : State × Response Wishlist :=
  match authenticate st userId with
  | .error r => (st, .failure r.1 r.2)
  | .ok _ =>
    match findProductById st productId.value with
    | none => (st, appError "Product not found" 404)
    | some product =>
      let (st, wishlist) := findOrCreateForUser st userId
      let wishlist := wishlist.addItem now productId
        { priority := priority
          notes := notes
          priceWhenAdded := some product.priceCurrent
          notifyOnPriceChange := notifyOnPriceChange
          notifyOnRestock := notifyOnRestock }
      let st := saveWishlist st wishlist
      let st := saveProduct st (updateEngagement product (some "wishlist") 1)
      (st, .success 200 "Item added to wishlist successfully" wishlist)

/-- The controller `removeFromWishlist` (behind `authenticate`); `productId` is
the text of the route parameter. -/
def removeFromWishlist (st : State) (userId : Nat) (productId : RequestId) :
    State × Response Wishlist :=
  match authenticate st userId with
  | .error r => (st, .failure r.1 r.2)
  | .ok _ =>
    match findWishlist st userId with
    | none => (st, appError "Wishlist not found" 404)
    | some wishlist =>
      if !wishlist.hasProduct productId then (st, appError "Product not in wishlist" 400)
      else
        let wishlist := wishlist.removeItem productId
        let st := saveWishlist st wishlist
        let st :=
          match findProductById st productId.value with
          | some product => saveProduct st (updateEngagement product (some "wishlist") (-1))
          | none => st
        (st, .success 200 "Item removed from wishlist successfully" wishlist)

/-! ## Sequences of requests -/

/-- A request to one of the four state-changing endpoints of the engine. -/
inductive Request where
  | recordSwipe (userId productId : Nat) (action : String) (context : SwipeContext)
      (headers : DeviceInfo)
  | undoLastSwipe (userId : Nat)
  | addToWishlist (userId : Nat) (productId : RequestId) (priority : Option Int)
      (notes : Option String) (notifyOnPriceChange notifyOnRestock : Option Bool)
  | removeFromWishlist (userId : Nat) (productId : RequestId)
  deriving DecidableEq, Repr

/-- The state after serving one request at time `now`, and whether it succeeded. -/
def serve (st : State) (now : Int) : Request → State × Bool
  | .recordSwipe u p a c h => let r := recordSwipe st now u p a c h; (r.1, r.2.isSuccess)
  | .undoLastSwipe u => let r := undoLastSwipe st now u; (r.1, r.2.isSuccess)
  | .addToWishlist u p pr n c k => let r := addToWishlist st now u p pr n c k; (r.1, r.2.isSuccess)
  | .removeFromWishlist u p => let r := removeFromWishlist st u p; (r.1, r.2.isSuccess)

/-- The state after serving a sequence of timed requests one after the other. -/
def serveAll (st : State) : List (Int × Request) → State
  | [] => st
  | (now, r) :: rest => serveAll (serve st now r).1 rest

/-- Every request of the sequence is answered successfully. -/
def allSucceed (st : State) : List (Int × Request) → Bool
  | [] => true
  | (now, r) :: rest => (serve st now r).2 && allSucceed (serve st now r).1 rest

/-! ## Ledger-derived counts -/

/-- The number of swipe records on a product whose action is like or super_like. -/
def productLikeRecords (st : State) (productId : Nat) : Nat :=
  (st.swipes.filter (fun s => s.product == productId && isLikeAction s.action)).length

/-- The number of swipe records on a product whose action is dislike. -/
def productDislikeRecords (st : State) (productId : Nat) : Nat :=
  (st.swipes.filter (fun s => s.product == productId && s.action == "dislike")).length

/-- The number of swipe records of a user. -/
def userSwipeRecords (st : State) (userId : Nat) : Nat :=
  (st.swipes.filter (fun s => s.user == userId)).length

/-- The number of swipe records of a user whose action is like or super_like. -/
def userLikeRecords (st : State) (userId : Nat) : Nat :=
  (st.swipes.filter (fun s => s.user == userId && isLikeAction s.action)).length

/-- The counters of every product and every user agree with the ledger. -/
def Consistent (st : State) : Prop :=
  (∀ p ∈ st.products,
      p.totalLikes = productLikeRecords st p._id ∧
      p.totalDislikes = productDislikeRecords st p._id) ∧
  (∀ u ∈ st.users,
      u.totalSwipes = userSwipeRecords st u._id ∧ u.totalLikes = userLikeRecords st u._id)

instance (st : State) : Decidable (Consistent st) := by
  unfold Consistent; infer_instance

/-- Every engagement counter of every product and user is at least 0. -/
def NonNegative (st : State) : Prop :=
  (∀ p ∈ st.products, 0 ≤ p.totalLikes ∧ 0 ≤ p.totalDislikes ∧ 0 ≤ p.totalWishlisted) ∧
  (∀ u ∈ st.users, 0 ≤ u.totalSwipes ∧ 0 ≤ u.totalLikes)

instance (st : State) : Decidable (NonNegative st) := by
  unfold NonNegative; infer_instance

/-- A store with an empty ledger, no wishlist and all counters 0: two active
products (the second one out of stock) and two users. -/
def initialState : State :=
  { swipes := []
    products :=
      [{ _id := 1, brand := "acme", category := "tops", colors := ["red"], priceCurrent := 500,
         isActive := true, inStock := true, totalViews := 0, totalLikes := 0,
         totalDislikes := 0, totalWishlisted := 0, createdAt := 0 },
       { _id := 2, brand := "zeta", category := "bags", colors := [], priceCurrent := 900,
         isActive := true, inStock := false, totalViews := 0, totalLikes := 0,
         totalDislikes := 0, totalWishlisted := 0, createdAt := 10 }]
    users :=
      [{ _id := 1, preferences := none, totalSwipes := 0, totalLikes := 0, isActive := true,
         isBlocked := false },
       { _id := 2, preferences := none, totalSwipes := 0, totalLikes := 0, isActive := true,
         isBlocked := false }]
    wishlists := []
    nextId := 0 }

/-- A request context with no field and no device header. -/
def noContext : SwipeContext := ⟨none, none, none, none⟩

/-- The device information of a request without device headers. -/
def noHeaders : DeviceInfo := ⟨none, none, none⟩

/-! ## Sequences of `recordSwipe` calls -/

/-- One call of `recordSwipe`: the time of the call and the request. -/
structure SwipeCall where
  now : Int
  userId : Nat
  productId : Nat
  action : String
  context : SwipeContext
  headers : DeviceInfo
  deriving DecidableEq, Repr

/-- The state after the calls have been executed one after the other. -/
def recordAll (st : State) : List SwipeCall → State
  | [] => st
  | c :: rest =>
    recordAll (recordSwipe st c.now c.userId c.productId c.action c.context c.headers).1 rest

/-- Every call of the sequence is answered successfully. -/
def allRecorded (st : State) : List SwipeCall → Prop
  | [] => True
  | c :: rest =>
    (recordSwipe st c.now c.userId c.productId c.action c.context c.headers).2.isSuccess = true ∧
    allRecorded (recordSwipe st c.now c.userId c.productId c.action c.context c.headers).1 rest

/-- The action of the last call of the sequence made for the pair, if any. -/
def lastActionFor (userId productId : Nat) : List SwipeCall → Option String
  | [] => none
  | c :: rest =>
    match lastActionFor userId productId rest with
    | some a => some a
    | none => if c.userId = userId ∧ c.productId = productId then some c.action else none

/-- The guarantees of the store on the swipe collection: `_id`s are unique (and
below the next fresh one) and the unique index on `(user, product)` holds. -/
def WellFormed (st : State) : Prop :=
  st.swipes.Pairwise
    (fun a b => a._id ≠ b._id ∧ ¬ (a.user = b.user ∧ a.product = b.product)) ∧
  ∀ s ∈ st.swipes, s._id < st.nextId

instance (st : State) : Decidable (WellFormed st) := by
  unfold WellFormed; infer_instance

/-- The swipe records stored for a `(user, product)` pair. -/
def recordsFor (st : State) (userId productId : Nat) : List Swipe :=
  st.swipes.filter (fun s => s.user == userId && s.product == productId)

/-! ## `models/Swipe.js`: trending products -/

/-- The threshold `dateThreshold.setDate(dateThreshold.getDate() - days)` of the
aggregations, in milliseconds: `days` calendar days before `now` (a calendar
day is taken as 24 hours). -/
def dateThreshold (now : Int) (days : Int) : Int :=
  now - days * 86400000

/-- A document after the `$group` and `$addFields` stages of `getTrendingProducts`. -/
structure TrendingGroup where
  _id : Nat
  likeCount : Nat
  superLikeCount : Nat
  score : Nat
  deriving DecidableEq, Repr

/-- A document of the result of `getTrendingProducts`, after `$lookup`,
`$unwind` and `$project`. -/
structure TrendingEntry where
  _id : Nat
  product : Product
  likeCount : Nat
  superLikeCount : Nat
  score : Nat
  deriving DecidableEq, Repr

/-- The `$match` stage of `getTrendingProducts`. -/
def trendingMatch (st : State) (now : Int) (days : Int) : List Swipe :=
  st.swipes.filter (fun s =>
    decide (dateThreshold now days ≤ s.createdAt) && ["like", "super_like"].contains s.action)

/-- The `$group` and `$addFields` stages for one product id: `likeCount` sums 1
over every matched swipe of the product, `superLikeCount` sums 1 over those
whose action is super_like, `score` is `likeCount + superLikeCount * 2`. -/
def trendingGroup (matched : List Swipe) (productId : Nat) : TrendingGroup :=
  let rows := matched.filter (fun s => s.product == productId)
  let likeCount := (rows.map (fun _ => 1)).sum
  let superLikeCount := (rows.map (fun s => if s.action = "super_like" then 1 else 0)).sum
  { _id := productId
    likeCount := likeCount
    superLikeCount := superLikeCount
    score := likeCount + superLikeCount * 2 }

/-- The static `Swipe.getTrendingProducts(days, limit)`. The store fixes neither
the order of the groups nor the order of equal scores; here the groups come in
the order of `List.dedup` and the sort is stable. -/
def getTrendingProducts (st : State) (now : Int) (days : Int) (limit : Nat) :
    List TrendingEntry :=
  let matched := trendingMatch st now days
  let groups := (matched.map (fun s => s.product)).dedup.map (trendingGroup matched)
  let sorted := groups.insertionSort (fun a b => b.score ≤ a.score)
  let limited := sorted.take limit
  limited.filterMap (fun g =>
    (findProductById st g._id).map (fun product =>
      { _id := g._id
        product := product
        likeCount := g.likeCount
        superLikeCount := g.superLikeCount
        score := g.score }))

/-- The number of swipes on a product with the given action inside the window. -/
def swipesInWindow (st : State) (now : Int) (days : Int) (productId : Nat) (action : String) :
    Nat :=
  (st.swipes.filter (fun s =>
    s.product == productId && s.action == action &&
      decide (dateThreshold now days ≤ s.createdAt))).length

/-! ## Recommendations -/

/-- A group of the result of `Swipe.getRecommendationData`; `_id` is the action. -/
structure RecommendationGroup where
  _id : String
  categories : List String
  brands : List String
  colors : List (Option String)
  priceRange : List Int
  deriving DecidableEq, Repr

/-- The static `Swipe.getRecommendationData(userId)`: the swipes of the user
joined with their products (`$lookup`, `$unwind`), grouped by action. -/
def getRecommendationData (st : State) (userId : Nat) : List RecommendationGroup :=
  let joined : List (Swipe × Product) :=
    (st.swipes.filter (fun s => s.user == userId)).filterMap
      (fun s => (findProductById st s.product).map (fun product => (s, product)))
  (joined.map (fun r => r.1.action)).dedup.map (fun action =>
    let rows := joined.filter (fun r => r.1.action == action)
    { _id := action
      categories := (rows.map (fun r => r.2.category)).dedup
      brands := (rows.map (fun r => r.2.brand)).dedup
      colors := (rows.map (fun r => r.2.colors.head?)).dedup
      priceRange := rows.map (fun r => r.2.priceCurrent) })

/-- The static `Swipe.getSwipedProductIds(userId)`. -/
def getSwipedProductIds (st : State) (userId : Nat) : List Nat :=
  ((st.swipes.filter (fun s => s.user == userId)).map (fun s => s.product)).dedup

/-- The filter object `query` that `getPersonalizedRecommendations` builds,
applied to one product. -/
def matchesQuery (swipedProductIds : List Nat) (likedData : Option RecommendationGroup)
    (userPrefs : Option Preferences) (product : Product) : Bool :=
  !swipedProductIds.contains product._id && product.isActive && product.inStock &&
  (match likedData with
   | some liked =>
     (liked.categories.isEmpty || liked.categories.contains product.category) &&
     (liked.brands.isEmpty || liked.brands.contains product.brand)
   | none => true) &&
  (match userPrefs.bind (fun prefs => prefs.priceRange) with
   | some range =>
     decide (orNumber range.min 0 ≤ product.priceCurrent) &&
     decide (product.priceCurrent ≤ orNumber range.max 100000)
   | none => true)

/-- The `data` object of the recommendations response. -/
structure RecommendationsData where
  recommendations : List Product
  count : Nat
  basedOn : String
  deriving DecidableEq, Repr

/-- The cursor method `.limit(n)` of a `find` query: 0 means no limit. -/
def limitTo {α : Type} (n : Nat) (l : List α) : List α :=
  if n = 0 then l else l.take n

/-- The controller `getPersonalizedRecommendations` (behind `authenticate`);
`limit` is the query parameter, 20 when absent. The response body carries no
message, which is the empty string here. -/
def getPersonalizedRecommendations (st : State) (userId : Nat) (limit : Option Nat) :
    Response RecommendationsData :=
  match authenticate st userId with
  | .error r => .failure r.1 r.2
  | .ok user =>
    let recommendationData := getRecommendationData st userId
    let swipedProductIds := getSwipedProductIds st userId
    let likedData := recommendationData.find? (fun data => data._id == "like")
    let found := st.products.filter (matchesQuery swipedProductIds likedData user.preferences)
    let sorted := found.insertionSort (fun a b =>
      b.totalLikes < a.totalLikes ∨ (a.totalLikes = b.totalLikes ∧ b.createdAt ≤ a.createdAt))
    let recommendations := limitTo (limit.getD 20) sorted
    .success 200 ""
      { recommendations := recommendations
        count := recommendations.length
        basedOn := "user_preferences_and_swipe_history" }

/-- The `recommendations` array of a response (empty for an error response). -/
def recommendationsOf : Response RecommendationsData → List Product
  | .success _ _ data => data.recommendations
  | .failure _ _ => []

/-! ## Concrete stores used by the evaluated theorems -/

/-- The first user of `initialState`. -/
def firstUser : User :=
  { _id := 1, preferences := none, totalSwipes := 0, totalLikes := 0, isActive := true,
    isBlocked := false }

/-- The store after user 1 swiped `dislike` on product 1 at time 1000. -/
def dislikedState : State :=
  (recordSwipe initialState 1000 1 1 "dislike" noContext noHeaders).1

/-- Five successful requests from `initialState`: user 1 likes product 1, user 2
skips it and then changes the swipe to like, and both users undo. -/
def negativeLikesRun : List (Int × Request) :=
  [(1000, .recordSwipe 1 1 "like" noContext noHeaders),
   (1001, .recordSwipe 2 1 "skip" noContext noHeaders),
   (1002, .recordSwipe 2 1 "like" noContext noHeaders),
   (1003, .undoLastSwipe 1),
   (1004, .undoLastSwipe 2)]

/-- The store after user 1 liked and user 2 super-liked product 1 at time 1000. -/
def trendingState : State :=
  (recordSwipe (recordSwipe initialState 1000 1 1 "like" noContext noHeaders).1
    1000 2 1 "super_like" noContext noHeaders).1

/-- A catalog of three active, in-stock products (1: tops, 2: bags, 3: tops) and
one user, with an empty ledger. -/
def catalogState : State :=
  { swipes := []
    products :=
      [{ _id := 1, brand := "acme", category := "tops", colors := ["red"], priceCurrent := 500,
         isActive := true, inStock := true, totalViews := 0, totalLikes := 0,
         totalDislikes := 0, totalWishlisted := 0, createdAt := 0 },
       { _id := 2, brand := "acme", category := "bags", colors := [], priceCurrent := 900,
         isActive := true, inStock := true, totalViews := 0, totalLikes := 0,
         totalDislikes := 0, totalWishlisted := 0, createdAt := 10 },
       { _id := 3, brand := "acme", category := "tops", colors := [], priceCurrent := 700,
         isActive := true, inStock := true, totalViews := 0, totalLikes := 0,
         totalDislikes := 0, totalWishlisted := 0, createdAt := 20 }]
    users := [firstUser]
    wishlists := []
    nextId := 0 }

/-- The catalog after user 1 swiped `super_like` on product 1 (category tops). -/
def superLikedState : State :=
  (recordSwipe catalogState 1000 1 1 "super_like" noContext noHeaders).1

/-- The catalog after user 1 swiped `like` on product 1 (category tops). -/
def likedState : State :=
  (recordSwipe catalogState 1000 1 1 "like" noContext noHeaders).1

/-! ## Trending products: what the pipeline leaves open -/

/-- The documents after the `$group` and `$addFields` stages of
`getTrendingProducts`, in the order the model gives them. -/
def trendingGroups (st : State) (now : Int) (days : Int) : List TrendingGroup :=
  (((trendingMatch st now days).map (fun s => s.product)).dedup).map
    (trendingGroup (trendingMatch st now days))

/-- The `$lookup`, `$unwind` and `$project` stages of `getTrendingProducts`: a
group whose product document is gone is dropped. -/
def joinProducts (st : State) (groups : List TrendingGroup) : List TrendingEntry :=
  groups.filterMap (fun g =>
    (findProductById st g._id).map (fun product =>
      { _id := g._id
        product := product
        likeCount := g.likeCount
        superLikeCount := g.superLikeCount
        score := g.score }))

/-- The results that the pipeline of `getTrendingProducts` admits: the stage
`$sort` on `score: -1` may deliver the groups in any order that is
non-increasing in the score; then come `$limit` and the join. -/
def TrendingOutcome (st : State) (now : Int) (days : Int) (limit : Nat)
    (result : List TrendingEntry) : Prop :=
  ∃ sorted : List TrendingGroup,
    sorted.Perm (trendingGroups st now days) ∧
    sorted.Pairwise (fun a b => b.score ≤ a.score) ∧
    result = joinProducts st (sorted.take limit)

/-- A swipe that counts for the trending window of a product. -/
def qualifies (now : Int) (days : Int) (productId : Nat) (s : Swipe) : Prop :=
  s.product = productId ∧ (s.action = "like" ∨ s.action = "super_like") ∧
    dateThreshold now days ≤ s.createdAt

instance (now : Int) (days : Int) (productId : Nat) (s : Swipe) :
    Decidable (qualifies now days productId s) := by
  unfold qualifies; infer_instance

/-! ## Swipe history -/

/-- The static `Swipe.getUserSwipeHistory(userId, limit)`: the swipes of the
user, newest first, cut by `.limit(limit)`. (The populated product fields of
the entries are not modelled.) -/
def getUserSwipeHistory (st : State) (userId : Nat) (limit : Nat) : List Swipe :=
  limitTo limit
    ((st.swipes.filter (fun s => s.user == userId)).insertionSort
      (fun a b => b.createdAt ≤ a.createdAt))

/-- The `pagination` object of the history response. -/
structure Pagination where
  page : Nat
  limit : Nat
  total : Nat
  pages : Nat
  deriving DecidableEq, Repr

/-- The `data` object of the history response. -/
structure HistoryData where
  swipes : List Swipe
  pagination : Pagination
  deriving DecidableEq, Repr

/-- The controller `getSwipeHistory` (behind `authenticate`); `page` and `limit`
are the query parameters, 1 and 20 when absent. A page 0 makes `skip` negative
and the slice empty; `pages` is `Math.ceil(total / limit)`, taken as 0 for a
limit of 0. The response body carries no message. -/
def getSwipeHistory (st : State) (userId : Nat) (page limit : Option Nat)
    (action : Option String) : Response HistoryData :=
  match authenticate st userId with
  | .error r => .failure r.1 r.2
  | .ok _ =>
    let page := page.getD 1
    let limit := limit.getD 20
    let swipeHistory := getUserSwipeHistory st userId limit
    let filteredHistory : List Swipe :=
      match action with
      | some a =>
        if a ≠ "" ∧ validActions.contains a = true then
          swipeHistory.filter (fun swipe => swipe.action == a)
        else swipeHistory
      | none => swipeHistory
    let skip := (page - 1) * limit
    let paginatedHistory :=
      if page = 0 then [] else (filteredHistory.drop skip).take limit
    .success 200 ""
      { swipes := paginatedHistory
        pagination :=
          { page := page
            limit := limit
            total := filteredHistory.length
            pages := if limit = 0 then 0 else (filteredHistory.length + limit - 1) / limit } }

/-- The `swipes` array of a history response (empty for an error response). -/
def historyOf : Response HistoryData → List Swipe
  | .success _ _ data => data.swipes
  | .failure _ _ => []

/-- The whole history of a user, newest first, restricted to an action when a
valid action filter is given: what the pages of `getSwipeHistory` are cut from
according to the specification. -/
def wholeHistory (st : State) (userId : Nat) (action : Option String) : List Swipe :=
  let all := (st.swipes.filter (fun s => s.user == userId)).insertionSort
    (fun a b => b.createdAt ≤ a.createdAt)
  match action with
  | some a =>
    if a ≠ "" ∧ validActions.contains a = true then all.filter (fun swipe => swipe.action == a)
    else all
  | none => all

/-! ## Context fields -/

/-- The value a context field has after a merge: the one supplied in the
request if the request supplies the field, the previously stored one otherwise. -/
def suppliedOr {α : Type} (request stored : Option α) : Option α :=
  match request with
  | some v => some v
  | none => stored

/-- The trending score of a product id: the `score` of its group. -/
def trendingScore (st : State) (now : Int) (days : Int) (productId : Nat) : Nat :=
  (trendingGroup (trendingMatch st now days) productId).score

/-! ## More concrete stores -/

/-- The store reached by the first four requests of `negativeLikesRun`: product
1 has totalLikes = 0 while user 2 still holds a like on it. -/
def beforeLastUndo : State :=
  serveAll initialState (negativeLikesRun.take 4)

/-- The catalog after user 1 liked product 2 at time 1000 and product 1 at time
2000: both products have one like. -/
def tieState : State :=
  (recordSwipe (recordSwipe catalogState 1000 1 2 "like" noContext noHeaders).1
    2000 1 1 "like" noContext noHeaders).1

/-- The catalog after user 1 liked product 1 at time 1000 and product 2 at time
400000. -/
def twoSwipesState : State :=
  (recordSwipe (recordSwipe catalogState 1000 1 1 "like" noContext noHeaders).1
    400000 1 2 "like" noContext noHeaders).1

/-- The catalog after user 1 liked product 1 at time 1000 and disliked products
2 and 3 at times 2000 and 3000. -/
def historyState : State :=
  (recordSwipe
    (recordSwipe (recordSwipe catalogState 1000 1 1 "like" noContext noHeaders).1
      2000 1 2 "dislike" noContext noHeaders).1
    3000 1 3 "dislike" noContext noHeaders).1

/-! ## `middleware/auth.js`: rate limiting -/

/-- An entry of the `attempts` map of a limiter. -/
structure Attempt where
  count : Nat
  resetTime : Int
  deriving DecidableEq, Repr

/-- The answer of the limiter: `next()` or the 429 response with its `retryAfter`. -/
inductive RateOutcome where
  | next
  | tooMany (retryAfter : Int)
  deriving DecidableEq, Repr

/-- The key of a request: `req.ip + (req.body.phone || '')`. -/
def rateKey (ip : String) (phone : Option String) : String :=
  ip ++ orString phone ""

/-- The call `attempts.set(key, attempt)` (also the in-place update of a stored
entry) on the map of a limiter. -/
def setAttempt (attempts : String → Option Attempt) (key : String) (attempt : Attempt) :
    String → Option Attempt :=
  fun k => if k = key then some attempt else attempts k

/-- The middleware returned by `authRateLimit(maxAttempts, windowMs)`, for the
request with the given key arriving at time `now`: the new map and the answer.
`retryAfter` is `Math.ceil((resetTime - now) / 1000)`, where `resetTime - now`
is not negative. -/
def authRateLimit (maxAttempts : Nat) (windowMs : Int) (attempts : String → Option Attempt)
    (key : String) (now : Int) : (String → Option Attempt) × RateOutcome :=
  match attempts key with
  | none => (setAttempt attempts key ⟨1, now + windowMs⟩, .next)
  | some attempt =>
    if now > attempt.resetTime then (setAttempt attempts key ⟨1, now + windowMs⟩, .next)
    else if attempt.count ≥ maxAttempts then
      (attempts, .tooMany ((attempt.resetTime - now + 999) / 1000))
    else (setAttempt attempts key ⟨attempt.count + 1, attempt.resetTime⟩, .next)

/-- The answers to a sequence of requests with the same key, arriving at the
given times one after the other. -/
def rateOutcomes (maxAttempts : Nat) (windowMs : Int) (attempts : String → Option Attempt)
    (key : String) : List Int → List RateOutcome
  | [] => []
  | now :: rest =>
    (authRateLimit maxAttempts windowMs attempts key now).2 ::
      rateOutcomes maxAttempts windowMs
        (authRateLimit maxAttempts windowMs attempts key now).1 key rest

/-- The request was passed on to the next handler. -/
def RateOutcome.passed : RateOutcome → Bool
  | .next => true
  | .tooMany _ => false

/-- The map of a limiter that has seen no request. -/
def noAttempts : String → Option Attempt :=
  fun _ => none

/-! ## `utils/sms.js` and `middleware/validation.js`: phone numbers -/

/-- The expression `phone.replace(/\D/g, '')`: the digit characters of the string. -/
def digitsOf (phone : String) : List Char :=
  phone.data.filter Char.isDigit

/-- The tail of `phoneRegex`: one character from 6 to 9 followed by exactly nine
digits, up to the end of the string. -/
def mobileDigits : List Char → Bool
  | [] => false
  | d :: rest => ['6', '7', '8', '9'].contains d && rest.length == 9 && rest.all Char.isDigit

/-- The test `phoneRegex.test(s)`: an optional prefix `+91` or `91`, then
`mobileDigits`, anchored at both ends. -/
def phoneRegexTest (s : List Char) : Bool :=
  (match s with
   | '+' :: '9' :: '1' :: rest => mobileDigits rest
   | _ => false) ||
  (match s with
   | '9' :: '1' :: rest => mobileDigits rest
   | _ => false) ||
  mobileDigits s

/-- The function `isValidPhoneNumber` (the same text in `utils/sms.js` and in
`middleware/validation.js`). -/
def isValidPhoneNumber (phone : String) : Bool :=
  let cleaned := digitsOf phone
  phoneRegexTest cleaned || phoneRegexTest ('9' :: '1' :: cleaned)

/-- The function `formatPhoneNumber` of `utils/sms.js`. -/
def formatPhoneNumber (phone : String) : String :=
  let cleaned := digitsOf phone
  if cleaned.length = 10 then ⟨'+' :: '9' :: '1' :: cleaned⟩
  else if cleaned.length = 12 ∧ cleaned.take 2 = ['9', '1'] then ⟨'+' :: cleaned⟩
  else if cleaned.length = 13 ∧ cleaned.take 3 = ['+', '9', '1'] then ⟨cleaned⟩
  else phone

/-! ## `middleware/validation.js`: sanitisation -/

mutual
/-- A JSON value of a request body. -/
inductive Json where
  | null
  | bool (b : Bool)
  | num (n : Int)
  | str (s : String)
  | arr (items : JsonList)
  | obj (fields : JsonFields)
/-- The elements of a JSON array. -/
inductive JsonList where
  | nil
  | cons (head : Json) (tail : JsonList)
/-- The entries of a JSON object, in order. -/
inductive JsonFields where
  | nil
  | cons (key : String) (value : Json) (rest : JsonFields)
end

/-- White space and line terminators, which `String.prototype.trim` removes. -/
def isJsWhitespace (c : Char) : Bool :=
  let n := c.toNat
  n == 9 || n == 10 || n == 11 || n == 12 || n == 13 || n == 32 || n == 160 ||
  n == 5760 || (8192 ≤ n && n ≤ 8202) || n == 8232 || n == 8233 || n == 8239 ||
  n == 8287 || n == 12288 || n == 65279

/-- The method `str.trim()` on the characters of a string. -/
def jsTrim (s : List Char) : List Char :=
  ((s.dropWhile isJsWhitespace).reverse.dropWhile isJsWhitespace).reverse

/-- The function `sanitizeString` on a string: trim, then delete every `<` and `>`. -/
def sanitizeString (s : String) : String :=
  ⟨(jsTrim s.data).filter (fun c => c != '<' && c != '>')⟩

/-- The callback of `sanitizeArray`: only an item that is itself a string is changed. -/
def sanitizeItems : JsonList → JsonList
  | .nil => .nil
  | .cons (.str s) tail => .cons (.str (sanitizeString s)) (sanitizeItems tail)
  | .cons item tail => .cons item (sanitizeItems tail)

mutual
/-- The function `sanitizeObject`. An array handed to it directly is an object
for `typeof`, and its `Object.entries` are its elements under their indices. -/
def sanitizeObject : Json → Json
  | .obj fields => .obj (sanitizeFields fields)
  | .arr items => .obj (sanitizeEntries 0 items)
  | other => other
/-- The loop of `sanitizeObject` over the entries of an object: a string goes to
`sanitizeString`, an array to `sanitizeArray`, an object to `sanitizeObject`. -/
def sanitizeFields : JsonFields → JsonFields
  | .nil => .nil
  | .cons key (.str s) rest => .cons key (.str (sanitizeString s)) (sanitizeFields rest)
  | .cons key (.arr items) rest => .cons key (.arr (sanitizeItems items)) (sanitizeFields rest)
  | .cons key (.obj fields) rest => .cons key (.obj (sanitizeFields fields)) (sanitizeFields rest)
  | .cons key value rest => .cons key value (sanitizeFields rest)
/-- The loop of `sanitizeObject` over the entries of an array, from index `i`. -/
def sanitizeEntries (i : Nat) : JsonList → JsonFields
  | .nil => .nil
  | .cons (.str s) tail =>
    .cons (toString i) (.str (sanitizeString s)) (sanitizeEntries (i + 1) tail)
  | .cons (.arr items) tail =>
    .cons (toString i) (.arr (sanitizeItems items)) (sanitizeEntries (i + 1) tail)
  | .cons (.obj fields) tail =>
    .cons (toString i) (.obj (sanitizeFields fields)) (sanitizeEntries (i + 1) tail)
  | .cons value tail => .cons (toString i) value (sanitizeEntries (i + 1) tail)
end

mutual
/-- Some string value inside the JSON value contains `<` or `>`. -/
def Json.hasAngle : Json → Bool
  | .str s => s.data.any (fun c => c == '<' || c == '>')
  | .arr items => items.hasAngle
  | .obj fields => fields.hasAngle
  | _ => false
/-- Some string value inside the elements contains `<` or `>`. -/
def JsonList.hasAngle : JsonList → Bool
  | .nil => false
  | .cons head tail => head.hasAngle || tail.hasAngle
/-- Some string value inside the entries contains `<` or `>`. -/
def JsonFields.hasAngle : JsonFields → Bool
  | .nil => false
  | .cons _ value rest => value.hasAngle || rest.hasAngle
end

/-- The request body with one array whose only element is an object holding a
string with angle brackets. -/
def nestedBody : Json :=
  .obj (.cons "items" (.arr (.cons (.obj (.cons "name" (.str "<b>x</b>") .nil)) .nil)) .nil)

/-! ## Sequences of wishlist calls -/

/-- A call of one of the two item methods of a wishlist. -/
inductive WishlistCall where
  | addItem (now : Int) (productId : RequestId) (options : WishlistOptions)
  | removeItem (productId : RequestId)
  deriving DecidableEq, Repr

/-- The wishlist after one call. -/
def Wishlist.call (w : Wishlist) : WishlistCall → Wishlist
  | .addItem now productId options => w.addItem now productId options
  | .removeItem productId => w.removeItem productId

/-- The wishlist after a sequence of calls. -/
def Wishlist.callAll (w : Wishlist) : List WishlistCall → Wishlist
  | [] => w
  | c :: rest => (w.call c).callAll rest

/-- The options object with no field. -/
def noOptions : WishlistOptions := ⟨none, none, none, none, none⟩

/-! ## Stores for the last claims -/

/-- The catalog with user 1 carrying the price range min 0, max 0. -/
def zeroMaxState : State :=
  { catalogState with
    users := [{ firstUser with preferences := some ⟨some ⟨some 0, some 0⟩⟩ }] }

/-- The catalog with user 1 carrying the price range min 600, max 800. -/
def rangeState : State :=
  { catalogState with
    users := [{ firstUser with preferences := some ⟨some ⟨some 600, some 800⟩⟩ }] }

/-- The store `likedState` after product 1 has been removed from the catalog:
the like of user 1 (time 1000) refers to a product that no longer exists. -/
def orphanState : State :=
  { likedState with products := likedState.products.filter (fun p => p._id != 1) }

/-- Two `addToWishlist` requests of user 1 for product 1. -/
def addTwice : List (Int × Request) :=
  [(1000, .addToWishlist 1 1 none none none none),
   (2000, .addToWishlist 1 1 none none none none)]

/-! # Theorems -/

/-! ## Frame lemmas -/

@[simp]
theorem saveProduct_swipes (st : State) (p : Product) :
    (saveProduct st p).swipes = st.swipes := rfl
@[simp]
theorem saveProduct_nextId (st : State) (p : Product) :
    (saveProduct st p).nextId = st.nextId := rfl
@[simp]
theorem saveUser_swipes (st : State) (u : User) :
    (saveUser st u).swipes = st.swipes := rfl
@[simp]
theorem saveUser_nextId (st : State) (u : User) :
    (saveUser st u).nextId = st.nextId := rfl
@[simp]
theorem updateProductEngagement_swipes (st : State) (p : Nat) (o n : String) :
    (updateProductEngagement st p o n).swipes = st.swipes := by
  unfold updateProductEngagement; split <;> rfl
@[simp]
theorem updateProductEngagement_nextId (st : State) (p : Nat) (o n : String) :
    (updateProductEngagement st p o n).nextId = st.nextId := by
  unfold updateProductEngagement; split <;> rfl
@[simp]
theorem updateUserStats_swipes (st : State) (u : Nat) (o n : String) :
    (updateUserStats st u o n).swipes = st.swipes := by
  unfold updateUserStats; split <;> rfl
@[simp]
theorem updateUserStats_nextId (st : State) (u : Nat) (o n : String) :
    (updateUserStats st u o n).nextId = st.nextId := by
  unfold updateUserStats; split <;> rfl

theorem authenticate_ok (st : State) (u : Nat) (user : User)
    (h : authenticate st u = .ok user) :
    findUserById st u = some user ∧ user.isActive = true ∧ user.isBlocked = false := by
  unfold authenticate at h
  split at h
  · cases h
  · split at h
    · cases h
    · split at h
      · cases h
      · rename_i h1 h2 h3
        cases h
        simp at h2 h3
        exact ⟨h1, h2, h3⟩

/-- The ledger effect of `recordSwipe`: nothing on failure, one record
rewritten in place on a repeat swipe, one record appended on a first swipe. -/
theorem recordSwipe_ledger (st : State) (now : Int) (u p : Nat) (a : String)
    (c : SwipeContext) (h : DeviceInfo) :
    ((recordSwipe st now u p a c h).1 = st ∧ (recordSwipe st now u p a c h).2.isSuccess = false) ∨
    (∃ found, findSwipe st u p = some found ∧
      (recordSwipe st now u p a c h).2.isSuccess = true ∧
      (recordSwipe st now u p a c h).1.nextId = st.nextId ∧
      (recordSwipe st now u p a c h).1.swipes =
        st.swipes.map (fun s => if s._id == found._id then
          { found with action := a, swipeContext := mergeContext found.swipeContext c } else s)) ∨
    (∃ sw : Swipe, findSwipe st u p = none ∧
      (recordSwipe st now u p a c h).2.isSuccess = true ∧
      sw._id = st.nextId ∧ sw.user = u ∧ sw.product = p ∧ sw.action = a ∧
      (recordSwipe st now u p a c h).1.nextId = st.nextId + 1 ∧
      (recordSwipe st now u p a c h).1.swipes = st.swipes ++ [sw]) := by
  unfold recordSwipe
  split
  · left; exact ⟨rfl, rfl⟩
  · split
    · left; exact ⟨rfl, rfl⟩
    · split
      · left; exact ⟨rfl, rfl⟩
      · split
        · left; exact ⟨rfl, rfl⟩
        · split
          · rename_i found hf
            right; left
            refine ⟨found, hf, rfl, ?_, ?_⟩
            · simp [saveSwipe]
            · simp [saveSwipe]
          · rename_i hf
            right; right
            refine ⟨newSwipe st.nextId now u p a c h, hf, rfl, rfl, rfl, rfl, rfl, ?_, ?_⟩
            · simp
            · simp

theorem findSwipe_some (st : State) (u p : Nat) (found : Swipe)
    (h : findSwipe st u p = some found) :
    found ∈ st.swipes ∧ found.user = u ∧ found.product = p := by
  unfold findSwipe at h
  have h1 := List.mem_of_find?_eq_some h
  have h2 := List.find?_some h
  simp at h2
  exact ⟨h1, h2.1, h2.2⟩

theorem findSwipe_none (st : State) (u p : Nat) (h : findSwipe st u p = none) :
    ∀ s ∈ st.swipes, ¬ (s.user = u ∧ s.product = p) := by
  unfold findSwipe at h
  intro s hs hp
  have := List.find?_eq_none.mp h s hs
  simp [hp.1, hp.2] at this

theorem eq_of_id_eq (st : State) (wf : WellFormed st) (x y : Swipe)
    (hx : x ∈ st.swipes) (hy : y ∈ st.swipes) (h : x._id = y._id) : x = y := by
  by_contra hne
  have hs : Symmetric (fun a b : Swipe =>
      a._id ≠ b._id ∧ ¬ (a.user = b.user ∧ a.product = b.product)) := by
    intro a b hab
    exact ⟨fun e => hab.1 e.symm, fun e => hab.2 ⟨e.1.symm, e.2.symm⟩⟩
  exact (wf.1.forall hs hx hy hne).1 h

theorem eq_of_pair_eq (st : State) (wf : WellFormed st) (x y : Swipe)
    (hx : x ∈ st.swipes) (hy : y ∈ st.swipes)
    (h : x.user = y.user ∧ x.product = y.product) : x = y := by
  by_contra hne
  have hs : Symmetric (fun a b : Swipe =>
      a._id ≠ b._id ∧ ¬ (a.user = b.user ∧ a.product = b.product)) := by
    intro a b hab
    exact ⟨fun e => hab.1 e.symm, fun e => hab.2 ⟨e.1.symm, e.2.symm⟩⟩
  exact (wf.1.forall hs hx hy hne).2 h

/-- The store guarantees survive every `recordSwipe`. -/
theorem recordSwipe_wellFormed (st : State) (wf : WellFormed st) (now : Int) (u p : Nat)
    (a : String) (c : SwipeContext) (h : DeviceInfo) :
    WellFormed (recordSwipe st now u p a c h).1 := by
  rcases recordSwipe_ledger st now u p a c h with ⟨h1, _⟩ | ⟨found, hf, _, hn, hs⟩ |
    ⟨sw, hf, _, hid, hu, hp, _, hn, hs⟩
  · rw [h1]; exact wf
  · obtain ⟨hmem, _, _⟩ := findSwipe_some st u p found hf
    have key : ∀ s ∈ st.swipes,
        ((if s._id == found._id then
          { found with action := a, swipeContext := mergeContext found.swipeContext c }
          else s) : Swipe)._id = s._id ∧
        ((if s._id == found._id then
          { found with action := a, swipeContext := mergeContext found.swipeContext c }
          else s) : Swipe).user = s.user ∧
        ((if s._id == found._id then
          { found with action := a, swipeContext := mergeContext found.swipeContext c }
          else s) : Swipe).product = s.product := by
      intro s hs
      by_cases e : s._id = found._id
      · have := eq_of_id_eq st wf s found hs hmem e
        subst this
        simp
      · simp [e]
    refine ⟨?_, ?_⟩
    · rw [hs, List.pairwise_map]
      refine wf.1.imp_of_mem ?_
      intro x y hx hy hxy
      obtain ⟨k1, k2, k3⟩ := key x hx
      obtain ⟨l1, l2, l3⟩ := key y hy
      rw [k1, k2, k3, l1, l2, l3]
      exact hxy
    · rw [hs, hn]
      intro s hs2
      obtain ⟨t, ht, rfl⟩ := List.mem_map.mp hs2
      rw [(key t ht).1]
      exact wf.2 t ht
  · have hnone := findSwipe_none st u p hf
    refine ⟨?_, ?_⟩
    · rw [hs, List.pairwise_append]
      refine ⟨wf.1, List.pairwise_singleton _ _, ?_⟩
      intro x hx y hy
      simp at hy
      subst hy
      refine ⟨?_, ?_⟩
      · have := wf.2 x hx
        omega
      · rw [hu, hp]; exact hnone x hx
    · rw [hs, hn]
      intro s hs2
      rcases List.mem_append.mp hs2 with h1 | h1
      · have := wf.2 s h1; omega
      · simp at h1; subst h1; omega

/-- A successful `recordSwipe` leaves a record for the pair with the requested action. -/
theorem recordSwipe_records (st : State) (now : Int) (u p : Nat)
    (a : String) (c : SwipeContext) (h : DeviceInfo)
    (ok : (recordSwipe st now u p a c h).2.isSuccess = true) :
    ∃ s ∈ (recordSwipe st now u p a c h).1.swipes, s.user = u ∧ s.product = p ∧ s.action = a := by
  rcases recordSwipe_ledger st now u p a c h with ⟨_, h2⟩ | ⟨found, hf, _, _, hs⟩ |
    ⟨sw, _, _, _, hu, hp, ha, _, hs⟩
  · rw [h2] at ok; cases ok
  · obtain ⟨hmem, fu, fp⟩ := findSwipe_some st u p found hf
    refine ⟨{ found with action := a, swipeContext := mergeContext found.swipeContext c },
      ?_, fu, fp, rfl⟩
    rw [hs]
    refine List.mem_map.mpr ⟨found, hmem, ?_⟩
    simp
  · exact ⟨sw, by rw [hs]; simp, hu, hp, ha⟩

/-- A `recordSwipe` for one pair leaves the records of every other pair as they are. -/
theorem recordSwipe_keeps_other (st : State) (wf : WellFormed st) (now : Int) (u p : Nat)
    (a : String) (c : SwipeContext) (h : DeviceInfo) (s : Swipe) (hs : s ∈ st.swipes)
    (hne : ¬ (s.user = u ∧ s.product = p)) :
    s ∈ (recordSwipe st now u p a c h).1.swipes := by
  rcases recordSwipe_ledger st now u p a c h with ⟨h1, _⟩ | ⟨found, hf, _, _, hsw⟩ |
    ⟨sw, _, _, _, _, _, _, _, hsw⟩
  · rw [h1]; exact hs
  · obtain ⟨hmem, fu, fp⟩ := findSwipe_some st u p found hf
    rw [hsw]
    refine List.mem_map.mpr ⟨s, hs, ?_⟩
    have : s._id ≠ found._id := by
      intro e
      have := eq_of_id_eq st wf s found hs hmem e
      subst this
      exact hne ⟨fu, fp⟩
    simp [this]
  · rw [hsw]; simp [hs]

/-- Under the store guarantees the records of a pair are exactly one record,
as soon as there is one. -/
theorem recordsFor_eq_singleton (st : State) (wf : WellFormed st) (s : Swipe)
    (hs : s ∈ st.swipes) : recordsFor st s.user s.product = [s] := by
  unfold recordsFor
  have hp := wf.1
  revert hs hp
  generalize st.swipes = l
  intro hs hp
  induction l with
  | nil => cases hs
  | cons x xs ih =>
    rw [List.pairwise_cons] at hp
    rcases List.mem_cons.mp hs with e | e
    · subst e
      rw [List.filter_cons_of_pos (by simp)]
      congr 1
      rw [List.filter_eq_nil_iff]
      intro y hy hq
      simp at hq
      exact (hp.1 y hy).2 ⟨hq.1.symm, hq.2.symm⟩
    · have hx : ¬ (x.user = s.user ∧ x.product = s.product) := (hp.1 s e).2
      rw [List.filter_cons_of_neg (by simpa using hx)]
      exact ih e hp.2

theorem recordAll_wellFormed (calls : List SwipeCall) :
    ∀ st : State, WellFormed st → WellFormed (recordAll st calls) := by
  induction calls with
  | nil => intro st wf; exact wf
  | cons c rest ih =>
    intro st wf
    exact ih _ (recordSwipe_wellFormed st wf _ _ _ _ _ _)

theorem recordAll_keeps_other (u p : Nat) (calls : List SwipeCall) :
    ∀ st : State, WellFormed st → lastActionFor u p calls = none →
      ∀ s ∈ st.swipes, s.user = u → s.product = p → s ∈ (recordAll st calls).swipes := by
  induction calls with
  | nil => intro st _ _ s hs _ _; exact hs
  | cons c rest ih =>
    intro st wf hl s hs hu hp
    unfold lastActionFor at hl
    split at hl
    · cases hl
    · rename_i hrest
      split at hl
      · cases hl
      · rename_i hc
        refine ih _ (recordSwipe_wellFormed st wf _ _ _ _ _ _) hrest s ?_ hu hp
        refine recordSwipe_keeps_other st wf _ _ _ _ _ _ s hs ?_
        intro e
        exact hc ⟨e.1.symm.trans hu, e.2.symm.trans hp⟩

theorem recordAll_last (u p : Nat) (a : String) (calls : List SwipeCall) :
    ∀ st : State, WellFormed st → allRecorded st calls → lastActionFor u p calls = some a →
      ∃ s ∈ (recordAll st calls).swipes, s.user = u ∧ s.product = p ∧ s.action = a := by
  induction calls with
  | nil => intro st _ _ hl; cases hl
  | cons c rest ih =>
    intro st wf hok hl
    have wf1 := recordSwipe_wellFormed st wf c.now c.userId c.productId c.action c.context
      c.headers
    unfold lastActionFor at hl
    split at hl
    · rename_i b hrest
      cases hl
      exact ih _ wf1 hok.2 hrest
    · rename_i hrest
      split at hl
      · rename_i hc
        cases hl
        obtain ⟨s, hs, su, sp, sa⟩ := recordSwipe_records st c.now c.userId c.productId
          c.action c.context c.headers hok.1
        refine ⟨s, ?_, su.trans hc.1, sp.trans hc.2, sa⟩
        exact recordAll_keeps_other u p rest _ wf1 hrest s hs (su.trans hc.1) (sp.trans hc.2)
      · cases hl

/-- C4 (uniqueness): in a store that satisfies the unique index, after any
sequence of successful `recordSwipe` calls executed one after the other, every
pair swiped in the sequence has exactly one swipe record, and its action is
the action of the last call made for the pair. -/
theorem recordSwipe_unique_last_action (st : State) (calls : List SwipeCall)
    (u p : Nat) (a : String) (wf : WellFormed st) (ok : allRecorded st calls)
    (last : lastActionFor u p calls = some a) :
    ∃ s, recordsFor (recordAll st calls) u p = [s] ∧ s.action = a := by
  obtain ⟨s, hs, su, sp, sa⟩ := recordAll_last u p a calls st wf ok last
  refine ⟨s, ?_, sa⟩
  have := recordsFor_eq_singleton _ (recordAll_wellFormed calls st wf) s hs
  rw [su, sp] at this
  exact this


/-! ## First swipe followed by undo -/

theorem find_replace {α : Type} (key : α → Nat) (k : Nat) (q : α) (hq : key q = k)
    (l : List α) (x : α) (h : l.find? (fun y => key y == k) = some x) :
    (l.map (fun y => if key y == k then q else y)).find? (fun y => key y == k) = some q := by
  induction l with
  | nil => cases h
  | cons y ys ih =>
    by_cases e : key y = k
    · simp [e, hq]
    · have h2 : ys.find? (fun y => key y == k) = some x := by
        simpa [List.find?_cons, e] using h
      have h3 := ih h2
      rw [List.map_cons, List.find?_cons]
      have e2 : (key (if (key y == k) = true then q else y) == k) = false := by simp [e]
      rw [e2]
      exact h3

theorem findProductById_id (st : State) (p : Nat) (product : Product)
    (h : findProductById st p = some product) : product._id = p := by
  have := List.find?_some h
  simpa using this

theorem findUserById_id (st : State) (u : Nat) (user : User)
    (h : findUserById st u = some user) : user._id = u := by
  have := List.find?_some h
  simpa using this

theorem findProductById_saveProduct (st : State) (old q : Product)
    (h : findProductById st q._id = some old) :
    findProductById (saveProduct st q) q._id = some q :=
  find_replace (fun y : Product => y._id) q._id q rfl st.products old h

theorem findUserById_saveUser (st : State) (old q : User)
    (h : findUserById st q._id = some old) :
    findUserById (saveUser st q) q._id = some q :=
  find_replace (fun y : User => y._id) q._id q rfl st.users old h

theorem mostRecent_append_newer (n : Swipe) (l : List Swipe)
    (h : ∀ s ∈ l, s.createdAt < n.createdAt) : mostRecent (l ++ [n]) = some n := by
  induction l with
  | nil => rfl
  | cons x xs ih =>
    have hx := h x (List.mem_cons_self _ _)
    have := ih (fun s hs => h s (List.mem_cons_of_mem _ hs))
    simp [mostRecent, this, hx]

theorem eraseP_append_fresh (n : Swipe) (l : List Swipe) (h : ∀ s ∈ l, s._id ≠ n._id) :
    (l ++ [n]).eraseP (fun s => s._id == n._id) = l := by
  induction l with
  | nil => simp [List.eraseP]
  | cons x xs ih =>
    have hx := h x (List.mem_cons_self _ _)
    have := ih (fun s hs => h s (List.mem_cons_of_mem _ hs))
    simp [List.eraseP_cons, hx, this]

/-- The result of `recordSwipe` on a first swipe. -/
theorem recordSwipe_first (st : State) (now : Int) (u p : Nat) (a : String)
    (c : SwipeContext) (h : DeviceInfo) (user : User) (product : Product)
    (hauth : authenticate st u = .ok user) (hvalid : validActions.contains a = true)
    (hprod : findProductById st p = some product) (hact : product.isActive = true)
    (hfresh : findSwipe st u p = none) :
    recordSwipe st now u p a c h =
      (saveUser
        (saveProduct
          { st with
            swipes := st.swipes ++ [newSwipe st.nextId now u p a c h]
            nextId := st.nextId + 1 }
          (updateEngagement product (getEngagementType a) 1))
        (if isLikeAction a then
          { user with totalSwipes := user.totalSwipes + 1, totalLikes := user.totalLikes + 1 }
         else { user with totalSwipes := user.totalSwipes + 1 }),
       .success 201 "Swipe recorded successfully"
         ⟨newSwipe st.nextId now u p a c h, false⟩) := by
  unfold recordSwipe
  simp only [hauth, hvalid, hprod, hact, hfresh]
  cases isLikeAction a <;> rfl

/-- The result of `undoLastSwipe` when the last swipe is inside the window and
its product is still in the catalog. -/
theorem undoLastSwipe_done (st : State) (now : Int) (u : Nat) (user : User) (last : Swipe)
    (product : Product)
    (hauth : authenticate st u = .ok user) (hlast : findLastSwipe st u = some last)
    (hprod : findProductById st last.product = some product)
    (hwin : ¬ last.createdAt < now - 5 * 60 * 1000) :
    undoLastSwipe st now u =
      (saveUser
        (saveProduct (findByIdAndDelete st last._id)
          (updateEngagement product (getEngagementType last.action) (-1)))
        (if isLikeAction last.action then
          { user with
            totalSwipes := max 0 (user.totalSwipes - 1)
            totalLikes := max 0 (user.totalLikes - 1) }
         else { user with totalSwipes := max 0 (user.totalSwipes - 1) }),
       .success 200 "Last swipe undone successfully" ⟨last, product⟩) := by
  have hid := findProductById_id st last.product product hprod
  have hprod2 : findProductById (findByIdAndDelete st last._id) product._id = some product := by
    rw [hid]; exact hprod
  unfold undoLastSwipe
  simp only [hauth, hlast, hprod, hwin, if_false, hprod2]

theorem authenticate_of_find (st : State) (u : Nat) (user : User)
    (h : findUserById st u = some user) (ha : user.isActive = true)
    (hb : user.isBlocked = false) : authenticate st u = .ok user := by
  unfold authenticate
  simp [h, ha, hb]

@[simp]
theorem updateEngagement_id (product : Product) (type : Option String) (k : Int) :
    (updateEngagement product type k)._id = product._id := by
  unfold updateEngagement
  split
  · rfl
  · split
    · rfl
    · split <;> rfl

theorem updateEngagement_like_undo (product : Product) :
    updateEngagement (updateEngagement product (getEngagementType "like") 1)
      (getEngagementType "like") (-1) = product := by
  have h : getEngagementType "like" = some "like" := by decide
  rw [h]
  simp [updateEngagement]

/-- C5 (creation-then-undo identity): for an authenticated user with
non-negative counters and an active product they have not swiped, a `like`
recorded at time `t1` (later than the user's earlier swipes) and undone at a
time `t2` inside the five-minute window both succeed, and afterwards the
product document (so its totalLikes and totalDislikes) and the user document
(so its totalSwipes and totalLikes) are what they were before the swipe, the
ledger is as before and holds no record for the pair. -/
theorem swipe_then_undo_restores (st : State) (t1 t2 : Int) (u p : Nat)
    (c : SwipeContext) (h : DeviceInfo) (user : User) (product : Product)
    (hauth : authenticate st u = .ok user)
    (hprod : findProductById st p = some product) (hact : product.isActive = true)
    (hfresh : findSwipe st u p = none)
    (hS : 0 ≤ user.totalSwipes) (hL : 0 ≤ user.totalLikes)
    (hids : ∀ s ∈ st.swipes, s._id < st.nextId)
    (hrecent : ∀ s ∈ st.swipes, s.user = u → s.createdAt < t1)
    (hwin : t2 - t1 ≤ 5 * 60 * 1000) :
    (recordSwipe st t1 u p "like" c h).2.isSuccess = true ∧
    (undoLastSwipe (recordSwipe st t1 u p "like" c h).1 t2 u).2.isSuccess = true ∧
    findProductById (undoLastSwipe (recordSwipe st t1 u p "like" c h).1 t2 u).1 p
      = some product ∧
    findUserById (undoLastSwipe (recordSwipe st t1 u p "like" c h).1 t2 u).1 u = some user ∧
    (undoLastSwipe (recordSwipe st t1 u p "like" c h).1 t2 u).1.swipes = st.swipes ∧
    recordsFor (undoLastSwipe (recordSwipe st t1 u p "like" c h).1 t2 u).1 u p = [] := by
  obtain ⟨hfu, hua, hub⟩ := authenticate_ok st u user hauth
  have huid := findUserById_id st u user hfu
  have hpid := findProductById_id st p product hprod
  have h1 := recordSwipe_first st t1 u p "like" c h user product hauth (by decide) hprod hact
    hfresh
  have hlike : isLikeAction "like" = true := by decide
  rw [hlike] at h1
  simp only [if_true] at h1
  generalize hst1 : (recordSwipe st t1 u p "like" c h).1 = st1
  have e1 : st1 = saveUser
        (saveProduct
          { st with
            swipes := st.swipes ++ [newSwipe st.nextId t1 u p "like" c h]
            nextId := st.nextId + 1 }
          (updateEngagement product (getEngagementType "like") 1))
          { user with totalSwipes := user.totalSwipes + 1, totalLikes := user.totalLikes + 1 } := by
    rw [← hst1, h1]
  have ok1 : (recordSwipe st t1 u p "like" c h).2.isSuccess = true := by rw [h1]; rfl
  refine ⟨ok1, ?_⟩
  -- the state after the swipe
  have hsw : st1.swipes = st.swipes ++ [newSwipe st.nextId t1 u p "like" c h] := by
    rw [e1]; rfl
  have hu1 : findUserById st1 u = some
      { user with totalSwipes := user.totalSwipes + 1, totalLikes := user.totalLikes + 1 } := by
    rw [e1]
    have := findUserById_saveUser
      (saveProduct
          { st with
            swipes := st.swipes ++ [newSwipe st.nextId t1 u p "like" c h]
            nextId := st.nextId + 1 }
          (updateEngagement product (getEngagementType "like") 1)) user
      { user with totalSwipes := user.totalSwipes + 1, totalLikes := user.totalLikes + 1 }
      (by rw [← hfu]; simp only [huid]; rfl)
    simpa only [huid] using this
  have hp1 : findProductById st1 p =
      some (updateEngagement product (getEngagementType "like") 1) := by
    rw [e1]
    have := findProductById_saveProduct
      { st with
        swipes := st.swipes ++ [newSwipe st.nextId t1 u p "like" c h]
        nextId := st.nextId + 1 }
      product (updateEngagement product (getEngagementType "like") 1)
      (by rw [updateEngagement_id, hpid]; exact hprod)
    rw [updateEngagement_id, hpid] at this
    exact this
  have hauth1 := authenticate_of_find st1 u _ hu1 hua hub
  have hlast : findLastSwipe st1 u = some (newSwipe st.nextId t1 u p "like" c h) := by
    unfold findLastSwipe
    rw [hsw, List.filter_append]
    have : [newSwipe st.nextId t1 u p "like" c h].filter (fun s => s.user == u)
        = [newSwipe st.nextId t1 u p "like" c h] := by
      simp [newSwipe]
    rw [this]
    apply mostRecent_append_newer
    intro s hs
    have hs2 := List.mem_filter.mp hs
    exact hrecent s hs2.1 (by simpa using hs2.2)
  have hwin1 : ¬ (newSwipe st.nextId t1 u p "like" c h).createdAt < t2 - 5 * 60 * 1000 := by
    show ¬ t1 < t2 - 5 * 60 * 1000
    omega
  have h2 := undoLastSwipe_done st1 t2 u _ (newSwipe st.nextId t1 u p "like" c h)
    (updateEngagement product (getEngagementType "like") 1) hauth1 hlast hp1 hwin1
  have hact2 : (newSwipe st.nextId t1 u p "like" c h).action = "like" := rfl
  rw [hact2, hlike] at h2
  simp only [if_true] at h2
  rw [h2]
  dsimp only
  have hdel : (findByIdAndDelete st1 (newSwipe st.nextId t1 u p "like" c h)._id).swipes
      = st.swipes := by
    unfold findByIdAndDelete
    simp only [hsw]
    apply eraseP_append_fresh
    intro s hs
    have := hids s hs
    show s._id ≠ st.nextId
    omega
  have hsw2 : ∀ (P : Product) (U : User), (saveUser
      (saveProduct (findByIdAndDelete st1 (newSwipe st.nextId t1 u p "like" c h)._id) P)
      U).swipes = st.swipes := fun _ _ => hdel
  have hu : (⟨user._id, user.preferences, max 0 (user.totalSwipes + 1 - 1),
      max 0 (user.totalLikes + 1 - 1), user.isActive, user.isBlocked⟩ : User) = user := by
    cases user
    simp at hS hL ⊢
    exact ⟨hS, hL⟩
  rw [hu, updateEngagement_like_undo]
  refine ⟨rfl, ?_, ?_, hsw2 _ _, ?_⟩
  · have := findProductById_saveProduct
      (findByIdAndDelete st1 (newSwipe st.nextId t1 u p "like" c h)._id)
      (updateEngagement product (getEngagementType "like") 1) product
      (by rw [hpid]; exact hp1)
    rw [hpid] at this
    exact this
  · have := findUserById_saveUser
      (saveProduct (findByIdAndDelete st1 (newSwipe st.nextId t1 u p "like" c h)._id) product)
      _ user (by rw [huid]; exact hu1)
    rw [huid] at this
    exact this
  · unfold recordsFor
    rw [hsw2, List.filter_eq_nil_iff]
    intro s hs
    have := findSwipe_none st u p hfresh s hs
    simpa using this

/-! ## Claims -/

/-- C1 (ledger/counter consistency), evaluated: from a consistent store holding
one dislike by user 1 on product 1, a successful repeat `recordSwipe` with
action like leads to a store whose counters disagree with the ledger (the
product keeps totalDislikes = 1 with no dislike record left). -/
theorem repeat_swipe_breaks_consistency :
    Consistent dislikedState ∧
    (recordSwipe dislikedState 2000 1 1 "like" noContext noHeaders).2.isSuccess = true ∧
    ¬ Consistent (recordSwipe dislikedState 2000 1 1 "like" noContext noHeaders).1 ∧
    productDislikeRecords
      (recordSwipe dislikedState 2000 1 1 "like" noContext noHeaders).1 1 = 0 ∧
    (findProductById (recordSwipe dislikedState 2000 1 1 "like" noContext noHeaders).1 1).map
      (fun p => p.totalDislikes) = some 1 := by
  decide

/-- C2 (transition correctness), evaluated: with a stored dislike of user 1 on
product 1 and totalDislikes = 1, totalLikes = 0, `recordSwipe` with action like
leaves totalDislikes at 1 (totalLikes becomes 1 and the user's totalSwipes
stays 1). -/
theorem dislike_to_like_keeps_dislikes :
    (findSwipe dislikedState 1 1).map (fun s => s.action) = some "dislike" ∧
    (findProductById dislikedState 1).map (fun p => (p.totalLikes, p.totalDislikes))
      = some (0, 1) ∧
    (findUserById dislikedState 1).map (fun u => u.totalSwipes) = some 1 ∧
    (recordSwipe dislikedState 2000 1 1 "like" noContext noHeaders).2.isSuccess = true ∧
    (findProductById (recordSwipe dislikedState 2000 1 1 "like" noContext noHeaders).1 1).map
      (fun p => (p.totalLikes, p.totalDislikes)) = some (1, 1) ∧
    (findUserById (recordSwipe dislikedState 2000 1 1 "like" noContext noHeaders).1 1).map
      (fun u => u.totalSwipes) = some 1 := by
  decide

/-- C3 (counter non-negativity), evaluated: from the all-zero store with an
empty ledger, five successful requests (two first swipes, one repeat swipe, two
undos) lead to a store in which product 1 has totalLikes = -1. -/
theorem undo_after_repeat_goes_negative :
    NonNegative initialState ∧ initialState.swipes = [] ∧
    allSucceed initialState negativeLikesRun = true ∧
    ¬ NonNegative (serveAll initialState negativeLikesRun) ∧
    (findProductById (serveAll initialState negativeLikesRun) 1).map (fun p => p.totalLikes)
      = some (-1) := by
  decide

/-- Witness for C4: user 1 swipes dislike and then like on product 1. -/
theorem recordSwipe_unique_last_action_witness :
    ∃ s, recordsFor
        (recordAll initialState
          [⟨1000, 1, 1, "dislike", noContext, noHeaders⟩,
           ⟨2000, 1, 1, "like", noContext, noHeaders⟩]) 1 1 = [s] ∧
      s.action = "like" :=
  recordSwipe_unique_last_action initialState
    [⟨1000, 1, 1, "dislike", noContext, noHeaders⟩, ⟨2000, 1, 1, "like", noContext, noHeaders⟩]
    1 1 "like" (by decide) ⟨by decide, by decide, trivial⟩ (by decide)

/-- Witness for C5: in the store where user 1 holds an earlier dislike on
product 1, user 1 likes product 2 at time 5000 and undoes at time 6000. -/
theorem swipe_then_undo_restores_witness :
    (recordSwipe dislikedState 5000 1 2 "like" noContext noHeaders).2.isSuccess = true ∧
    (undoLastSwipe (recordSwipe dislikedState 5000 1 2 "like" noContext noHeaders).1
      6000 1).2.isSuccess = true ∧
    findProductById (undoLastSwipe
      (recordSwipe dislikedState 5000 1 2 "like" noContext noHeaders).1 6000 1).1 2
      = findProductById dislikedState 2 ∧
    findUserById (undoLastSwipe
      (recordSwipe dislikedState 5000 1 2 "like" noContext noHeaders).1 6000 1).1 1
      = findUserById dislikedState 1 ∧
    (undoLastSwipe (recordSwipe dislikedState 5000 1 2 "like" noContext noHeaders).1
      6000 1).1.swipes = dislikedState.swipes ∧
    recordsFor (undoLastSwipe
      (recordSwipe dislikedState 5000 1 2 "like" noContext noHeaders).1 6000 1).1 1 2 = [] :=
  swipe_then_undo_restores dislikedState 5000 6000 1 2 noContext noHeaders
    { firstUser with totalSwipes := 1 }
    { _id := 2, brand := "zeta", category := "bags", colors := [], priceCurrent := 900,
      isActive := true, inStock := false, totalViews := 0, totalLikes := 0,
      totalDislikes := 0, totalWishlisted := 0, createdAt := 10 }
    rfl (by decide) (by decide) (by decide) (by decide) (by decide) (by decide)
    (by decide) (by decide)

/-- C6 (undo expiry): when the user's most recent swipe is older than five
minutes (`now - createdAt > 300000` ms), `undoLastSwipe` answers 400 'Swipe is
too old to undo' and the whole store is unchanged; when it is at most five
minutes old, the answer is not that error. -/
theorem undo_expiry (st : State) (now : Int) (u : Nat) (user : User) (last : Swipe)
    (hauth : authenticate st u = .ok user) (hlast : findLastSwipe st u = some last) :
    (now - last.createdAt > 5 * 60 * 1000 →
      undoLastSwipe st now u = (st, .failure 400 "Swipe is too old to undo")) ∧
    (now - last.createdAt ≤ 5 * 60 * 1000 →
      (undoLastSwipe st now u).2 ≠ .failure 400 "Swipe is too old to undo") := by
  constructor
  · intro hold
    have : last.createdAt < now - 5 * 60 * 1000 := by omega
    unfold undoLastSwipe
    simp only [hauth, hlast, this, if_true]
    rfl
  · intro hnew
    have : ¬ last.createdAt < now - 5 * 60 * 1000 := by omega
    unfold undoLastSwipe
    simp only [hauth, hlast, this, if_false]
    split
    · intro e; cases e
    · intro e; cases e

/-- Witness for C6: the dislike of time 1000 is too old at time 301001. -/
theorem undo_expiry_witness :
    undoLastSwipe dislikedState 301001 1
      = (dislikedState, .failure 400 "Swipe is too old to undo") :=
  (undo_expiry dislikedState 301001 1 { firstUser with totalSwipes := 1 }
    (newSwipe 0 1000 1 1 "dislike" noContext noHeaders) rfl (by decide)).1 (by decide)

/-! ## Trending score -/

theorem trendingGroup_counts (l : List Swipe) (thr : Int) (pid : Nat) :
    (((l.filter (fun s => decide (thr ≤ s.createdAt) &&
        ["like", "super_like"].contains s.action)).filter
          (fun s => s.product == pid)).map (fun _ => 1)).sum =
      (l.filter (fun s => s.product == pid && s.action == "like" &&
        decide (thr ≤ s.createdAt))).length +
      (l.filter (fun s => s.product == pid && s.action == "super_like" &&
        decide (thr ≤ s.createdAt))).length ∧
    (((l.filter (fun s => decide (thr ≤ s.createdAt) &&
        ["like", "super_like"].contains s.action)).filter
          (fun s => s.product == pid)).map
            (fun s => if s.action = "super_like" then 1 else 0)).sum =
      (l.filter (fun s => s.product == pid && s.action == "super_like" &&
        decide (thr ≤ s.createdAt))).length := by
  induction l with
  | nil => simp
  | cons x xs ih =>
    obtain ⟨ih1, ih2⟩ := ih
    simp only [List.filter_filter] at ih1 ih2 ⊢
    have hne : ¬ (x.action = "like" ∧ x.action = "super_like") := by
      rintro ⟨hl, hs⟩
      rw [hl] at hs
      exact absurd hs (by decide)
    by_cases hl : x.action = "like"
    · have hs : ¬ x.action = "super_like" := fun hs => hne ⟨hl, hs⟩
      by_cases hw : thr ≤ x.createdAt <;> by_cases hp : x.product = pid <;>
        simp [List.filter_cons, hw, hp, hl] at ih1 ih2 ⊢ <;>
        constructor <;> omega
    · by_cases hs : x.action = "super_like"
      · by_cases hw : thr ≤ x.createdAt <;> by_cases hp : x.product = pid <;>
          simp [List.filter_cons, hw, hp, hs] at ih1 ih2 ⊢ <;>
          constructor <;> omega
      · by_cases hw : thr ≤ x.createdAt <;> by_cases hp : x.product = pid <;>
          simp [List.filter_cons, hw, hp, hl, hs] at ih1 ih2 ⊢ <;>
          constructor <;> omega

/-- C7 (trending score, as the code computes it): every entry of
`getTrendingProducts` has likeCount = likes + super_likes of its product inside
the window, superLikeCount = super_likes inside the window, and therefore
score = likeCount + 2 x superLikeCount = likes + 3 x super_likes. -/
theorem trending_score (st : State) (now : Int) (days : Int) (limit : Nat)
    (e : TrendingEntry) (he : e ∈ getTrendingProducts st now days limit) :
    e.likeCount = swipesInWindow st now days e._id "like" +
      swipesInWindow st now days e._id "super_like" ∧
    e.superLikeCount = swipesInWindow st now days e._id "super_like" ∧
    e.score = e.likeCount + 2 * e.superLikeCount ∧
    e.score = swipesInWindow st now days e._id "like" +
      3 * swipesInWindow st now days e._id "super_like" := by
  unfold getTrendingProducts at he
  simp only [List.mem_filterMap] at he
  obtain ⟨g, hg, hgo⟩ := he
  have hg2 := (List.mem_insertionSort _).mp (List.mem_of_mem_take hg)
  obtain ⟨pid, _, rfl⟩ := List.mem_map.mp hg2
  cases hf : findProductById st (trendingGroup (trendingMatch st now days) pid)._id with
  | none => rw [hf] at hgo; cases hgo
  | some product =>
    rw [hf] at hgo
    simp only [Option.map_some', Option.some.injEq] at hgo
    subst hgo
    obtain ⟨c1, c2⟩ := trendingGroup_counts st.swipes (dateThreshold now days) pid
    simp only [trendingGroup, trendingMatch, swipesInWindow]
    rw [c1, c2]
    refine ⟨rfl, rfl, by omega, by omega⟩

/-- Counterexample to C7 as stated: product 1 has one like and one super_like
inside the window, and its trending score is 4, not 1 + 2 x 1 = 3. -/
theorem trending_score_not_like_plus_two_super :
    swipesInWindow trendingState 2000 7 1 "like" = 1 ∧
    swipesInWindow trendingState 2000 7 1 "super_like" = 1 ∧
    (getTrendingProducts trendingState 2000 7 20).map (fun e => (e._id, e.score)) = [(1, 4)] ∧
    ∃ e ∈ getTrendingProducts trendingState 2000 7 20,
      e.score ≠ swipesInWindow trendingState 2000 7 e._id "like" +
        2 * swipesInWindow trendingState 2000 7 e._id "super_like" := by
  decide

/-- Witness for C7: the entry of product 1 in `trendingState`. -/
theorem trending_score_witness :
    (4 : Nat) = swipesInWindow trendingState 2000 7 1 "like" +
      3 * swipesInWindow trendingState 2000 7 1 "super_like" :=
  (trending_score trendingState 2000 7 20
    { _id := 1
      product :=
        { _id := 1, brand := "acme", category := "tops", colors := ["red"], priceCurrent := 500,
          isActive := true, inStock := true, totalViews := 0, totalLikes := 2,
          totalDislikes := 0, totalWishlisted := 0, createdAt := 0 }
      likeCount := 2
      superLikeCount := 1
      score := 4 } (by decide)).2.2.2

/-! ## Recommendations -/

theorem mem_of_mem_limitTo {α : Type} (n : Nat) (l : List α) (x : α)
    (h : x ∈ limitTo n l) : x ∈ l := by
  unfold limitTo at h
  split at h
  · exact h
  · exact List.mem_of_mem_take h

/-- Every recommended product satisfies the query built by the controller. -/
theorem recommendations_match_query (st : State) (u : Nat) (limit : Option Nat)
    (p : Product) (hp : p ∈ recommendationsOf (getPersonalizedRecommendations st u limit)) :
    ∃ user, authenticate st u = .ok user ∧ p ∈ st.products ∧
      matchesQuery (getSwipedProductIds st u)
        ((getRecommendationData st u).find? (fun data => data._id == "like"))
        user.preferences p = true := by
  unfold getPersonalizedRecommendations at hp
  split at hp
  · cases hp
  · rename_i user hauth
    refine ⟨user, hauth, ?_⟩
    have h1 := mem_of_mem_limitTo _ _ _ hp
    have h2 := (List.mem_insertionSort _).mp h1
    exact List.mem_filter.mp h2

/-- C8 (exclusion correctness): whatever the swipe history of the user, no
product returned by `getPersonalizedRecommendations` is the product of a swipe
record of that user, whatever its action. -/
theorem recommendations_exclude_swiped (st : State) (u : Nat) (limit : Option Nat)
    (p : Product) (hp : p ∈ recommendationsOf (getPersonalizedRecommendations st u limit))
    (s : Swipe) (hs : s ∈ st.swipes) (hu : s.user = u) : s.product ≠ p._id := by
  obtain ⟨user, _, _, hq⟩ := recommendations_match_query st u limit p hp
  intro e
  have hmem : p._id ∈ getSwipedProductIds st u := by
    unfold getSwipedProductIds
    rw [List.mem_dedup, List.mem_map]
    exact ⟨s, List.mem_filter.mpr ⟨hs, by simpa using hu⟩, e⟩
  unfold matchesQuery at hq
  simp [hmem] at hq

/-- Witness for C8: in `likedState` product 3 is recommended to user 1, who
swiped product 1. -/
theorem recommendations_exclude_swiped_witness :
    (newSwipe 0 1000 1 1 "like" noContext noHeaders).product ≠ 3 :=
  recommendations_exclude_swiped likedState 1 none
    { _id := 3, brand := "acme", category := "tops", colors := [], priceCurrent := 700,
      isActive := true, inStock := true, totalViews := 0, totalLikes := 0,
      totalDislikes := 0, totalWishlisted := 0, createdAt := 20 }
    (by decide) (newSwipe 0 1000 1 1 "like" noContext noHeaders) (by decide) (by decide)

/-- C9 (profile covers both positive actions), evaluated: user 1, whose only
swipe is a super_like on a product of category tops, is recommended a product
of category bags; after a like on the same product only tops are recommended. -/
theorem super_like_ignored_by_recommendations :
    superLikedState.swipes.map (fun s => (s.user, s.product, s.action))
      = [(1, 1, "super_like")] ∧
    (findProductById superLikedState 1).map (fun p => p.category) = some "tops" ∧
    (recommendationsOf (getPersonalizedRecommendations superLikedState 1 none)).map
      (fun p => (p._id, p.category)) = [(3, "tops"), (2, "bags")] ∧
    (recommendationsOf (getPersonalizedRecommendations likedState 1 none)).map
      (fun p => (p._id, p.category)) = [(3, "tops")] := by
  decide

/-! ## Availability -/

/-- Counterexample to C10 as stated: product 2 is active but out of stock, and
`recordSwipe` answers 201 and stores a swipe record for it. -/
theorem out_of_stock_swipe_recorded :
    (findProductById initialState 2).map (fun p => (p.isActive, p.inStock))
      = some (true, false) ∧
    (recordSwipe initialState 1000 1 2 "like" noContext noHeaders).2.status = 201 ∧
    (recordsFor (recordSwipe initialState 1000 1 2 "like" noContext noHeaders).1 1 2).map
      (fun s => s.action) = ["like"] := by
  decide

/-- C10 (availability precondition, as the code checks it): for an
authenticated user and a valid action, `recordSwipe` fails with 404 when the
product does not exist and with 400 'Product is no longer available' when it
is inactive, in both cases leaving the whole store unchanged; it changes the
store, or succeeds, only if the product exists and is active. -/
theorem recordSwipe_availability (st : State) (now : Int) (u p : Nat) (a : String)
    (c : SwipeContext) (h : DeviceInfo) (user : User)
    (hauth : authenticate st u = .ok user) (hvalid : a ∈ validActions) :
    (findProductById st p = none →
      recordSwipe st now u p a c h = (st, .failure 404 "Product not found")) ∧
    (∀ product, findProductById st p = some product → product.isActive = false →
      recordSwipe st now u p a c h = (st, .failure 400 "Product is no longer available")) ∧
    (((recordSwipe st now u p a c h).1 ≠ st ∨
        (recordSwipe st now u p a c h).2.isSuccess = true) →
      ∃ product, findProductById st p = some product ∧ product.isActive = true) := by
  have hv : validActions.contains a = true := by simpa using hvalid
  refine ⟨?_, ?_, ?_⟩
  · intro hnone
    unfold recordSwipe
    simp only [hauth, hv, hnone]
    rfl
  · intro product hprod hina
    unfold recordSwipe
    simp only [hauth, hv, hprod, hina]
    rfl
  · intro hch
    cases hprod : findProductById st p with
    | none =>
      have : recordSwipe st now u p a c h = (st, .failure 404 "Product not found") := by
        unfold recordSwipe
        simp only [hauth, hv, hprod]
        rfl
      rw [this] at hch
      rcases hch with h1 | h1
      · exact absurd rfl h1
      · cases h1
    | some product =>
      refine ⟨product, rfl, ?_⟩
      by_contra hina
      have hina2 : product.isActive = false := by simpa using hina
      have : recordSwipe st now u p a c h
          = (st, .failure 400 "Product is no longer available") := by
        unfold recordSwipe
        simp only [hauth, hv, hprod, hina2]
        rfl
      rw [this] at hch
      rcases hch with h1 | h1
      · exact absurd rfl h1
      · cases h1

/-- Witness for C10: a swipe on the unknown product 99 fails with 404. -/
theorem recordSwipe_availability_witness :
    recordSwipe initialState 1000 1 99 "like" noContext noHeaders
      = (initialState, .failure 404 "Product not found") :=
  (recordSwipe_availability initialState 1000 1 99 "like" noContext noHeaders firstUser
    rfl (by decide)).1 (by decide)

/-! ## Undo without history -/

theorem findLastSwipe_none_of_no_swipes (st : State) (u : Nat)
    (hnone : ∀ s ∈ st.swipes, s.user ≠ u) : findLastSwipe st u = none := by
  unfold findLastSwipe
  have : st.swipes.filter (fun s => s.user == u) = [] := by
    rw [List.filter_eq_nil_iff]
    intro s hs
    simpa using hnone s hs
  rw [this]
  rfl

/-- Counterexample to C11 as stated: user 1 of `initialState` has no swipe
record and `undoLastSwipe` answers 400, not 404. -/
theorem undo_without_history_is_400 :
    initialState.swipes = [] ∧
    undoLastSwipe initialState 1000 1 = (initialState, .failure 400 "No swipes to undo") ∧
    (undoLastSwipe initialState 1000 1).2.status ≠ 404 := by
  decide

/-- C11 (undo with no history, as the code answers it): for an authenticated
user with no swipe record, `undoLastSwipe` fails with status 400 and the
message 'No swipes to undo', and the whole store is unchanged. -/
theorem undo_without_history (st : State) (now : Int) (u : Nat) (user : User)
    (hauth : authenticate st u = .ok user) (hnone : ∀ s ∈ st.swipes, s.user ≠ u) :
    undoLastSwipe st now u = (st, .failure 400 "No swipes to undo") := by
  have hl := findLastSwipe_none_of_no_swipes st u hnone
  unfold undoLastSwipe
  simp only [hauth, hl]
  rfl

/-- Witness for C11: user 2 has no swipe in `dislikedState`. -/
theorem undo_without_history_witness :
    undoLastSwipe dislikedState 2000 2 = (dislikedState, .failure 400 "No swipes to undo") :=
  undo_without_history dislikedState 2000 2
    { _id := 2, preferences := none, totalSwipes := 0, totalLikes := 0, isActive := true,
      isBlocked := false }
    rfl (by decide)

/-! ## Effect of a first swipe -/

theorem find_replace_other {α : Type} (key : α → Nat) (k k2 : Nat) (q : α) (hq : key q = k)
    (hne : k2 ≠ k) (l : List α) :
    (l.map (fun y => if key y == k then q else y)).find? (fun y => key y == k2)
      = l.find? (fun y => key y == k2) := by
  induction l with
  | nil => rfl
  | cons y ys ih =>
    rw [List.map_cons, List.find?_cons, List.find?_cons, ih]
    by_cases e : key y = k
    · have e1 : (key y == k) = true := by simpa using e
      have e2 : (key q == k2) = false := by
        rw [hq]; simpa using fun e3 : k = k2 => hne e3.symm
      have e3 : (key y == k2) = false := by
        rw [e]; simpa using fun e3 : k = k2 => hne e3.symm
      simp only [e1, if_true, e2, e3]
    · have e1 : (key y == k) = false := by simpa using e
      simp only [e1]
      rfl

theorem findProductById_saveProduct_other (st : State) (q : Product) (k : Nat)
    (hne : k ≠ q._id) : findProductById (saveProduct st q) k = findProductById st k :=
  find_replace_other (fun y : Product => y._id) q._id k q rfl hne st.products

theorem findUserById_saveUser_other (st : State) (q : User) (k : Nat)
    (hne : k ≠ q._id) : findUserById (saveUser st q) k = findUserById st k :=
  find_replace_other (fun y : User => y._id) q._id k q rfl hne st.users

/-- C12 (creation effect): on a first swipe with a valid action `a`, the stored
product afterwards is the old one with totalLikes + 1 iff `a` is like or
super_like and totalDislikes + 1 iff `a` is dislike (totalViews,
totalWishlisted and every other field as before), the stored user is the old
one with totalSwipes + 1 and totalLikes + 1 iff `a` is like or super_like, and
no other product or user changes. -/
theorem first_swipe_counters (st : State) (now : Int) (u p : Nat) (a : String)
    (c : SwipeContext) (h : DeviceInfo) (user : User) (product : Product)
    (hauth : authenticate st u = .ok user) (hvalid : a ∈ validActions)
    (hprod : findProductById st p = some product) (hact : product.isActive = true)
    (hfresh : findSwipe st u p = none) :
    findProductById (recordSwipe st now u p a c h).1 p = some
      { product with
        totalLikes := product.totalLikes + (if a = "like" ∨ a = "super_like" then 1 else 0)
        totalDislikes := product.totalDislikes + (if a = "dislike" then 1 else 0) } ∧
    findUserById (recordSwipe st now u p a c h).1 u = some
      { user with
        totalSwipes := user.totalSwipes + 1
        totalLikes := user.totalLikes + (if a = "like" ∨ a = "super_like" then 1 else 0) } ∧
    (∀ k, k ≠ p → findProductById (recordSwipe st now u p a c h).1 k = findProductById st k) ∧
    (∀ k, k ≠ u → findUserById (recordSwipe st now u p a c h).1 k = findUserById st k) := by
  obtain ⟨hfu, _, _⟩ := authenticate_ok st u user hauth
  have huid := findUserById_id st u user hfu
  have hpid := findProductById_id st p product hprod
  have hv : validActions.contains a = true := by simpa using hvalid
  rw [recordSwipe_first st now u p a c h user product hauth hv hprod hact hfresh]
  dsimp only
  have hP : updateEngagement product (getEngagementType a) 1 =
      { product with
        totalLikes := product.totalLikes + (if a = "like" ∨ a = "super_like" then 1 else 0)
        totalDislikes := product.totalDislikes + (if a = "dislike" then 1 else 0) } := by
    simp only [validActions, List.mem_cons, List.mem_singleton, List.not_mem_nil, or_false]
      at hvalid
    rcases hvalid with rfl | rfl | rfl | rfl <;>
      simp [updateEngagement, getEngagementType]
  have hU : (if isLikeAction a = true then
          ({ user with totalSwipes := user.totalSwipes + 1, totalLikes := user.totalLikes + 1 }
            : User)
         else { user with totalSwipes := user.totalSwipes + 1 }) =
      { user with
        totalSwipes := user.totalSwipes + 1
        totalLikes := user.totalLikes + (if a = "like" ∨ a = "super_like" then 1 else 0) } := by
    simp only [validActions, List.mem_cons, List.mem_singleton, List.not_mem_nil, or_false]
      at hvalid
    rcases hvalid with rfl | rfl | rfl | rfl <;>
      simp [isLikeAction]
  rw [hP, hU]
  refine ⟨?_, ?_, ?_, ?_⟩
  · have := findProductById_saveProduct
      { st with
        swipes := st.swipes ++ [newSwipe st.nextId now u p a c h]
        nextId := st.nextId + 1 }
      product
      { product with
        totalLikes := product.totalLikes + (if a = "like" ∨ a = "super_like" then 1 else 0)
        totalDislikes := product.totalDislikes + (if a = "dislike" then 1 else 0) }
      (by rw [← hprod]; simp only [hpid]; rfl)
    simpa only [hpid] using this
  · have := findUserById_saveUser
      (saveProduct
        { st with
          swipes := st.swipes ++ [newSwipe st.nextId now u p a c h]
          nextId := st.nextId + 1 }
        { product with
          totalLikes := product.totalLikes + (if a = "like" ∨ a = "super_like" then 1 else 0)
          totalDislikes := product.totalDislikes + (if a = "dislike" then 1 else 0) })
      user
      { user with
        totalSwipes := user.totalSwipes + 1
        totalLikes := user.totalLikes + (if a = "like" ∨ a = "super_like" then 1 else 0) }
      (by rw [← hfu]; simp only [huid]; rfl)
    simpa only [huid] using this
  · intro k hk
    have := findProductById_saveProduct_other
      { st with
        swipes := st.swipes ++ [newSwipe st.nextId now u p a c h]
        nextId := st.nextId + 1 }
      { product with
        totalLikes := product.totalLikes + (if a = "like" ∨ a = "super_like" then 1 else 0)
        totalDislikes := product.totalDislikes + (if a = "dislike" then 1 else 0) }
      k (by simpa only [hpid] using hk)
    exact this
  · intro k hk
    have := findUserById_saveUser_other
      (saveProduct
        { st with
          swipes := st.swipes ++ [newSwipe st.nextId now u p a c h]
          nextId := st.nextId + 1 }
        { product with
          totalLikes := product.totalLikes + (if a = "like" ∨ a = "super_like" then 1 else 0)
          totalDislikes := product.totalDislikes + (if a = "dislike" then 1 else 0) })
      { user with
        totalSwipes := user.totalSwipes + 1
        totalLikes := user.totalLikes + (if a = "like" ∨ a = "super_like" then 1 else 0) }
      k (by simpa only [huid] using hk)
    exact this

/-- Witness for C12: user 2 swipes super_like on product 1 of `dislikedState`. -/
theorem first_swipe_counters_witness :
    (findProductById
      (recordSwipe dislikedState 2000 2 1 "super_like" noContext noHeaders).1 1).map
        (fun q => (q.totalLikes, q.totalDislikes, q.totalWishlisted, q.totalViews))
      = some (1, 1, 0, 0) ∧
    (findUserById
      (recordSwipe dislikedState 2000 2 1 "super_like" noContext noHeaders).1 2).map
        (fun q => (q.totalSwipes, q.totalLikes)) = some (1, 1) := by
  have h := first_swipe_counters dislikedState 2000 2 1 "super_like" noContext noHeaders
    { _id := 2, preferences := none, totalSwipes := 0, totalLikes := 0, isActive := true,
      isBlocked := false }
    { _id := 1, brand := "acme", category := "tops", colors := ["red"], priceCurrent := 500,
      isActive := true, inStock := true, totalViews := 0, totalLikes := 0,
      totalDislikes := 1, totalWishlisted := 0, createdAt := 0 }
    rfl (by decide) (by decide) (by decide) (by decide)
  rw [h.1, h.2.1]
  decide

/-! ## Repeat swipes and undo: evaluated -/

/-- C13 (user like count on a repeat swipe), evaluated: changing a stored
dislike to like leaves the user's totalLikes at 0, and changing a stored like
to dislike leaves it at 1. -/
theorem repeat_swipe_keeps_user_likes :
    (findSwipe dislikedState 1 1).map (fun s => s.action) = some "dislike" ∧
    (findUserById dislikedState 1).map (fun q => q.totalLikes) = some 0 ∧
    (recordSwipe dislikedState 2000 1 1 "like" noContext noHeaders).2.isSuccess = true ∧
    (findUserById (recordSwipe dislikedState 2000 1 1 "like" noContext noHeaders).1 1).map
      (fun q => q.totalLikes) = some 0 ∧
    (findSwipe likedState 1 1).map (fun s => s.action) = some "like" ∧
    (findUserById likedState 1).map (fun q => q.totalLikes) = some 1 ∧
    (recordSwipe likedState 2000 1 1 "dislike" noContext noHeaders).2.isSuccess = true ∧
    (findUserById (recordSwipe likedState 2000 1 1 "dislike" noContext noHeaders).1 1).map
      (fun q => q.totalLikes) = some 1 := by
  decide

/-- C14 (removal effect is clamped), evaluated: in `beforeLastUndo` product 1
has totalLikes = 0 and user 2 holds a like on it; the undo succeeds and stores
totalLikes = -1 on the product, while the user's totalLikes stays clamped at 0. -/
theorem undo_product_counter_not_clamped :
    (findLastSwipe beforeLastUndo 2).map (fun s => (s.product, s.action)) = some (1, "like") ∧
    (findProductById beforeLastUndo 1).map (fun q => q.totalLikes) = some 0 ∧
    (findUserById beforeLastUndo 2).map (fun q => (q.totalSwipes, q.totalLikes))
      = some (1, 0) ∧
    (undoLastSwipe beforeLastUndo 1004 2).2.isSuccess = true ∧
    (findProductById (undoLastSwipe beforeLastUndo 1004 2).1 1).map (fun q => q.totalLikes)
      = some (-1) ∧
    (findUserById (undoLastSwipe beforeLastUndo 1004 2).1 2).map
      (fun q => (q.totalSwipes, q.totalLikes)) = some (0, 0) := by
  decide

/-! ## Stored context -/

theorem find_replace_found (q : Swipe → Bool) (found stored : Swipe) (hq : q stored = true)
    (l : List Swipe) (h : l.find? q = some found) :
    (l.map (fun s => if s._id == found._id then stored else s)).find? q = some stored := by
  induction l with
  | nil => cases h
  | cons x xs ih =>
    rw [List.map_cons, List.find?_cons]
    by_cases e : x._id = found._id
    · have e1 : (x._id == found._id) = true := by simpa using e
      simp only [e1, if_true, hq]
    · have e1 : (x._id == found._id) = false := by simpa using e
      simp only [e1, Bool.false_eq_true, if_false]
      rw [List.find?_cons] at h
      cases hx : q x with
      | true =>
        rw [hx] at h
        simp only [Option.some.injEq] at h
        exact absurd (by rw [h]) e
      | false =>
        rw [hx] at h
        exact ih h

/-- The result of `recordSwipe` on a repeat swipe. -/
theorem recordSwipe_repeat (st : State) (now : Int) (u p : Nat) (a : String)
    (c : SwipeContext) (h : DeviceInfo) (user : User) (product : Product) (found : Swipe)
    (hauth : authenticate st u = .ok user) (hvalid : validActions.contains a = true)
    (hprod : findProductById st p = some product) (hact : product.isActive = true)
    (hfound : findSwipe st u p = some found) :
    recordSwipe st now u p a c h =
      (updateUserStats
        (updateProductEngagement
          (saveSwipe st
            { found with action := a, swipeContext := mergeContext found.swipeContext c })
          p a a)
        u a a,
       .success 200 "Swipe updated successfully"
         ⟨{ found with action := a, swipeContext := mergeContext found.swipeContext c },
          true⟩) := by
  unfold recordSwipe
  simp only [hauth, hvalid, hprod, hact, hfound]
  rfl

/-- C15 (context merge on repeat swipe): when a swipe is stored for the pair,
a successful `recordSwipe` answers 200 with isUpdate = true and the stored
record; that record is the old one with the requested action and, for each of
source, position, sessionId and timeSpent, the request's value if the request
supplies the field and the stored value otherwise. -/
theorem repeat_swipe_merges_context (st : State) (now : Int) (u p : Nat) (a : String)
    (c : SwipeContext) (h : DeviceInfo) (user : User) (product : Product) (found : Swipe)
    (hauth : authenticate st u = .ok user) (hvalid : a ∈ validActions)
    (hprod : findProductById st p = some product) (hact : product.isActive = true)
    (hfound : findSwipe st u p = some found) :
    ∃ stored : Swipe,
      findSwipe (recordSwipe st now u p a c h).1 u p = some stored ∧
      (recordSwipe st now u p a c h).2
        = .success 200 "Swipe updated successfully" ⟨stored, true⟩ ∧
      stored.action = a ∧
      stored.swipeContext.source = suppliedOr c.source found.swipeContext.source ∧
      stored.swipeContext.position = suppliedOr c.position found.swipeContext.position ∧
      stored.swipeContext.sessionId = suppliedOr c.sessionId found.swipeContext.sessionId ∧
      stored.swipeContext.timeSpent = suppliedOr c.timeSpent found.swipeContext.timeSpent ∧
      stored._id = found._id ∧ stored.user = found.user ∧ stored.product = found.product ∧
      stored.deviceInfo = found.deviceInfo ∧ stored.createdAt = found.createdAt := by
  have hv : validActions.contains a = true := by simpa using hvalid
  obtain ⟨_, fu, fp⟩ := findSwipe_some st u p found hfound
  rw [recordSwipe_repeat st now u p a c h user product found hauth hv hprod hact hfound]
  refine ⟨{ found with action := a, swipeContext := mergeContext found.swipeContext c },
    ?_, rfl, rfl, ?_, ?_, ?_, ?_, rfl, rfl, rfl, rfl, rfl⟩
  · unfold findSwipe
    simp only [updateUserStats_swipes, updateProductEngagement_swipes]
    exact find_replace_found (fun s => s.user == u && s.product == p) found _
      (by simp [fu, fp]) st.swipes hfound
  · cases hc : c.source <;> simp [mergeContext, suppliedOr, hc]
  · cases hc : c.position <;> simp [mergeContext, suppliedOr, hc]
  · cases hc : c.sessionId <;> simp [mergeContext, suppliedOr, hc]
  · cases hc : c.timeSpent <;> simp [mergeContext, suppliedOr, hc]

/-- Witness for C15: user 1 changes the stored dislike on product 1 to like and
supplies only a position. -/
theorem repeat_swipe_merges_context_witness :
    ∃ stored : Swipe,
      findSwipe (recordSwipe dislikedState 2000 1 1 "like"
        ⟨none, some 4, none, none⟩ noHeaders).1 1 1 = some stored ∧
      stored.action = "like" ∧
      stored.swipeContext.source = some "home" ∧
      stored.swipeContext.position = some 4 := by
  obtain ⟨stored, h1, _, h3, h4, h5, _⟩ :=
    repeat_swipe_merges_context dislikedState 2000 1 1 "like" ⟨none, some 4, none, none⟩
      noHeaders { firstUser with totalSwipes := 1 }
      { _id := 1, brand := "acme", category := "tops", colors := ["red"], priceCurrent := 500,
        isActive := true, inStock := true, totalViews := 0, totalLikes := 0,
        totalDislikes := 1, totalWishlisted := 0, createdAt := 0 }
      (newSwipe 0 1000 1 1 "dislike" noContext noHeaders)
      rfl (by decide) (by decide) (by decide) (by decide)
  exact ⟨stored, h1, h3, h4, h5⟩

/-- C16 (context normalisation on first swipe): when no swipe is stored for the
pair (and a supplied source is not the empty string, as the route validation
guarantees), a successful `recordSwipe` answers 201 with isUpdate = false and
the inserted record, which is then the stored record of the pair; its context
has the requested source, or 'home' when none was given, and the requested
position, sessionId and timeSpent. -/
theorem first_swipe_context (st : State) (now : Int) (u p : Nat) (a : String)
    (c : SwipeContext) (h : DeviceInfo) (user : User) (product : Product)
    (hauth : authenticate st u = .ok user) (hvalid : a ∈ validActions)
    (hprod : findProductById st p = some product) (hact : product.isActive = true)
    (hfresh : findSwipe st u p = none) (hsrc : c.source ≠ some "") :
    ∃ inserted : Swipe,
      findSwipe (recordSwipe st now u p a c h).1 u p = some inserted ∧
      (recordSwipe st now u p a c h).1.swipes = st.swipes ++ [inserted] ∧
      (recordSwipe st now u p a c h).2
        = .success 201 "Swipe recorded successfully" ⟨inserted, false⟩ ∧
      inserted.action = a ∧
      inserted.swipeContext.source = some (c.source.getD "home") ∧
      inserted.swipeContext.position = c.position ∧
      inserted.swipeContext.sessionId = c.sessionId ∧
      inserted.swipeContext.timeSpent = c.timeSpent := by
  have hv : validActions.contains a = true := by simpa using hvalid
  rw [recordSwipe_first st now u p a c h user product hauth hv hprod hact hfresh]
  refine ⟨newSwipe st.nextId now u p a c h, ?_, rfl, rfl, rfl, ?_, rfl, rfl, rfl⟩
  · unfold findSwipe at hfresh ⊢
    show (st.swipes ++ [newSwipe st.nextId now u p a c h]).find?
      (fun s => s.user == u && s.product == p) = _
    rw [List.find?_append, hfresh]
    simp [newSwipe]
  · show some (sourceOrHome c.source) = some (c.source.getD "home")
    cases hc : c.source with
    | none => rfl
    | some v =>
      have : v ≠ "" := fun e => hsrc (by rw [hc, e])
      simp [sourceOrHome, this]

/-- Witness for C16: user 2 swipes product 1 from the explore feed. -/
theorem first_swipe_context_witness :
    ∃ inserted : Swipe,
      findSwipe (recordSwipe dislikedState 2000 2 1 "like"
        ⟨some "explore", some 3, some "s1", some 12⟩ noHeaders).1 2 1 = some inserted ∧
      inserted.swipeContext = ⟨some "explore", some 3, some "s1", some 12⟩ := by
  obtain ⟨inserted, h1, _, _, _, h5, h6, h7, h8⟩ :=
    first_swipe_context dislikedState 2000 2 1 "like"
      ⟨some "explore", some 3, some "s1", some 12⟩ noHeaders
      { _id := 2, preferences := none, totalSwipes := 0, totalLikes := 0, isActive := true,
        isBlocked := false }
      { _id := 1, brand := "acme", category := "tops", colors := ["red"], priceCurrent := 500,
        isActive := true, inStock := true, totalViews := 0, totalLikes := 0,
        totalDislikes := 1, totalWishlisted := 0, createdAt := 0 }
      rfl (by decide) (by decide) (by decide) (by decide) (by decide)
  refine ⟨inserted, h1, ?_⟩
  cases inserted with
  | mk i us pr ac ctx dev cr =>
    cases ctx
    simp only at h5 h6 h7 h8
    simp [h5, h6, h7, h8]

/-! ## Trending: order and size -/

theorem getTrendingProducts_eq (st : State) (now : Int) (days : Int) (limit : Nat) :
    getTrendingProducts st now days limit =
      joinProducts st
        (((trendingGroups st now days).insertionSort (fun a b => b.score ≤ a.score)).take
          limit) := rfl

theorem mem_trendingMatch (st : State) (now : Int) (days : Int) (s : Swipe) :
    s ∈ trendingMatch st now days ↔
      s ∈ st.swipes ∧ (s.action = "like" ∨ s.action = "super_like") ∧
        dateThreshold now days ≤ s.createdAt := by
  unfold trendingMatch
  rw [List.mem_filter]
  simp only [Bool.and_eq_true, decide_eq_true_eq, List.contains_cons, List.contains_nil,
    Bool.or_false, Bool.or_eq_true, beq_iff_eq]
  tauto

theorem mem_trendingGroups (st : State) (now : Int) (days : Int) (g : TrendingGroup) :
    g ∈ trendingGroups st now days ↔
      ∃ pid, (∃ s ∈ st.swipes, qualifies now days pid s) ∧
        g = trendingGroup (trendingMatch st now days) pid := by
  unfold trendingGroups
  rw [List.mem_map]
  constructor
  · rintro ⟨pid, hpid, rfl⟩
    rw [List.mem_dedup, List.mem_map] at hpid
    obtain ⟨s, hs, rfl⟩ := hpid
    obtain ⟨h1, h2, h3⟩ := (mem_trendingMatch st now days s).mp hs
    exact ⟨s.product, ⟨s, h1, rfl, h2, h3⟩, rfl⟩
  · rintro ⟨pid, ⟨s, h1, h2, h3, h4⟩, rfl⟩
    refine ⟨pid, ?_, rfl⟩
    rw [List.mem_dedup, List.mem_map]
    exact ⟨s, (mem_trendingMatch st now days s).mpr ⟨h1, h3, h4⟩, h2⟩

theorem mem_joinProducts (st : State) (gs : List TrendingGroup) (e : TrendingEntry) :
    e ∈ joinProducts st gs ↔
      ∃ g ∈ gs, findProductById st g._id = some e.product ∧ e._id = g._id ∧
        e.likeCount = g.likeCount ∧ e.superLikeCount = g.superLikeCount ∧
        e.score = g.score := by
  unfold joinProducts
  rw [List.mem_filterMap]
  constructor
  · rintro ⟨g, hg, hm⟩
    cases hf : findProductById st g._id with
    | none => rw [hf] at hm; cases hm
    | some product =>
      rw [hf] at hm
      simp only [Option.map_some', Option.some.injEq] at hm
      subst hm
      exact ⟨g, hg, hf, rfl, rfl, rfl, rfl⟩
  · rintro ⟨g, hg, hf, h1, h2, h3, h4⟩
    refine ⟨g, hg, ?_⟩
    rw [hf]
    cases e
    simp only at h1 h2 h3 h4
    simp [h1, h2, h3, h4]

theorem joinProducts_sorted (st : State) (gs : List TrendingGroup)
    (h : gs.Pairwise (fun a b => b.score ≤ a.score)) :
    (joinProducts st gs).Pairwise (fun a b => b.score ≤ a.score) := by
  unfold joinProducts
  refine List.Pairwise.filterMap _ ?_ h
  intro a b hab x hx y hy
  cases ha : findProductById st a._id with
  | none => rw [ha] at hx; cases hx
  | some pa =>
    cases hb : findProductById st b._id with
    | none => rw [hb] at hy; cases hy
    | some pb =>
      rw [ha] at hx
      rw [hb] at hy
      simp only [Option.map_some', Option.mem_def, Option.some.injEq] at hx hy
      subst hx
      subst hy
      exact hab

theorem trendingGroups_sorted (st : State) (now : Int) (days : Int) :
    ((trendingGroups st now days).insertionSort (fun a b => b.score ≤ a.score)).Pairwise
      (fun a b => b.score ≤ a.score) := by
  haveI : IsTotal TrendingGroup (fun a b => b.score ≤ a.score) :=
    ⟨fun a b => Nat.le_total b.score a.score⟩
  haveI : IsTrans TrendingGroup (fun a b => b.score ≤ a.score) :=
    ⟨fun a b c hab hbc => Nat.le_trans hbc hab⟩
  exact List.sorted_insertionSort (fun a b : TrendingGroup => b.score ≤ a.score) _

/-- C17 (trending order and size): the list returned by `getTrendingProducts`
has at most `limit` entries; its scores are non-increasing from first to last;
every listed product has a like or super_like swipe with createdAt at or after
the threshold; and every catalog product with such a swipe that is not listed
has a score that is at most the score of every listed entry. -/
theorem trending_order_and_size (st : State) (now : Int) (days : Int) (limit : Nat) :
    (getTrendingProducts st now days limit).length ≤ limit ∧
    (getTrendingProducts st now days limit).Pairwise (fun a b => b.score ≤ a.score) ∧
    (∀ e ∈ getTrendingProducts st now days limit,
      ∃ s ∈ st.swipes, qualifies now days e._id s) ∧
    (∀ pid : Nat, (∃ s ∈ st.swipes, qualifies now days pid s) →
      (findProductById st pid).isSome = true →
      (∀ e ∈ getTrendingProducts st now days limit, e._id ≠ pid) →
      ∀ e ∈ getTrendingProducts st now days limit,
        trendingScore st now days pid ≤ e.score) := by
  rw [getTrendingProducts_eq]
  have hsorted := trendingGroups_sorted st now days
  generalize hS : (trendingGroups st now days).insertionSort (fun a b => b.score ≤ a.score)
    = sorted at hsorted
  have hmemS : ∀ g, g ∈ sorted ↔ g ∈ trendingGroups st now days := by
    intro g
    rw [← hS]
    exact List.mem_insertionSort _
  refine ⟨?_, ?_, ?_, ?_⟩
  · unfold joinProducts
    exact (List.length_filterMap_le _ _).trans (List.length_take_le _ _)
  · exact joinProducts_sorted st _ (hsorted.sublist (List.take_sublist _ _))
  · intro e he
    obtain ⟨g, hg, _, hid, _⟩ := (mem_joinProducts st _ e).mp he
    have hg2 := (hmemS g).mp (List.mem_of_mem_take hg)
    obtain ⟨pid, hq, rfl⟩ := (mem_trendingGroups st now days g).mp hg2
    rw [hid]
    exact hq
  · intro pid hq hex hun e he
    obtain ⟨g, hg, _, _, _, _, hscore⟩ := (mem_joinProducts st _ e).mp he
    have hgp : trendingGroup (trendingMatch st now days) pid ∈ sorted :=
      (hmemS _).mpr ((mem_trendingGroups st now days _).mpr ⟨pid, hq, rfl⟩)
    rw [← List.take_append_drop limit sorted] at hgp hsorted
    rw [List.pairwise_append] at hsorted
    rcases List.mem_append.mp hgp with hin | hin
    · exfalso
      obtain ⟨product, hprod⟩ := Option.isSome_iff_exists.mp hex
      have hmem : (⟨pid, product,
          (trendingGroup (trendingMatch st now days) pid).likeCount,
          (trendingGroup (trendingMatch st now days) pid).superLikeCount,
          (trendingGroup (trendingMatch st now days) pid).score⟩ : TrendingEntry)
          ∈ joinProducts st (sorted.take limit) :=
        (mem_joinProducts st _ _).mpr ⟨_, hin, hprod, rfl, rfl, rfl, rfl⟩
      exact hun _ hmem rfl
    · rw [hscore]
      exact hsorted.2.2 g hg _ hin

/-- Witness for C17: in `tieState` with limit 1 the unlisted product 1 scores no
more than the listed entry. -/
theorem trending_order_and_size_witness :
    (getTrendingProducts tieState 3000 7 1).length ≤ 1 ∧
    ∀ e ∈ getTrendingProducts tieState 3000 7 1, trendingScore tieState 3000 7 1 ≤ e.score :=
  ⟨(trending_order_and_size tieState 3000 7 1).1,
   (trending_order_and_size tieState 3000 7 1).2.2.2 1
     ⟨newSwipe 1 2000 1 1 "like" noContext noHeaders, by decide, by decide⟩
     (by decide) (by decide)⟩

/-! ## Trending: equal scores -/

/-- Counterexample to C18 as stated: products 2 and 1 both score 1 in
`tieState`; the model lists product 2 before product 1, and the pipeline
admits both orders. -/
theorem trending_tie_not_by_id :
    (getTrendingProducts tieState 3000 7 20).map (fun e => (e._id, e.score))
      = [(2, 1), (1, 1)] ∧
    ∃ r1 r2, TrendingOutcome tieState 3000 7 20 r1 ∧ TrendingOutcome tieState 3000 7 20 r2 ∧
      r1.map (fun e => e._id) = [2, 1] ∧ r2.map (fun e => e._id) = [1, 2] := by
  refine ⟨by decide, ?_⟩
  refine ⟨joinProducts tieState
      [trendingGroup (trendingMatch tieState 3000 7) 2,
       trendingGroup (trendingMatch tieState 3000 7) 1],
    joinProducts tieState
      [trendingGroup (trendingMatch tieState 3000 7) 1,
       trendingGroup (trendingMatch tieState 3000 7) 2],
    ⟨[trendingGroup (trendingMatch tieState 3000 7) 2,
       trendingGroup (trendingMatch tieState 3000 7) 1], by decide, by decide, rfl⟩,
    ⟨[trendingGroup (trendingMatch tieState 3000 7) 1,
       trendingGroup (trendingMatch tieState 3000 7) 2], by decide, by decide, rfl⟩,
    by decide, by decide⟩

/-- C18 (trending order among equal scores, as the code leaves it): the result
of `getTrendingProducts` is one of the results the pipeline admits; in every
admitted result the scores are non-increasing, so a product with a greater
score comes first; and any two admitted orderings of the groups carry the same
sequence of scores, so they differ only in the order of equal-score products. -/
theorem trending_sorted_by_score_only (st : State) (now : Int) (days : Int) (limit : Nat) :
    TrendingOutcome st now days limit (getTrendingProducts st now days limit) ∧
    (∀ result, TrendingOutcome st now days limit result →
      result.Pairwise (fun a b => b.score ≤ a.score)) ∧
    (∀ s1 s2 : List TrendingGroup,
      s1.Perm (trendingGroups st now days) → s2.Perm (trendingGroups st now days) →
      s1.Pairwise (fun a b => b.score ≤ a.score) →
      s2.Pairwise (fun a b => b.score ≤ a.score) →
      s1.map (fun g => g.score) = s2.map (fun g => g.score)) := by
  refine ⟨?_, ?_, ?_⟩
  · exact ⟨_, List.perm_insertionSort _ _, trendingGroups_sorted st now days,
      getTrendingProducts_eq st now days limit⟩
  · rintro result ⟨sorted, _, hs, rfl⟩
    exact joinProducts_sorted st _ (hs.sublist (List.take_sublist _ _))
  · intro s1 s2 h1 h2 p1 p2
    have hp : (s1.map (fun g => g.score)).Perm (s2.map (fun g => g.score)) :=
      (h1.trans h2.symm).map _
    have q1 : (s1.map (fun g => g.score)).Sorted (· ≥ ·) :=
      List.pairwise_map.mpr p1
    have q2 : (s2.map (fun g => g.score)).Sorted (· ≥ ·) :=
      List.pairwise_map.mpr p2
    exact List.eq_of_perm_of_sorted hp q1 q2

/-- Witness for C18: the two orderings of the groups of `tieState`. -/
theorem trending_sorted_by_score_only_witness :
    [trendingGroup (trendingMatch tieState 3000 7) 2,
      trendingGroup (trendingMatch tieState 3000 7) 1].map (fun g => g.score)
    = [trendingGroup (trendingMatch tieState 3000 7) 1,
      trendingGroup (trendingMatch tieState 3000 7) 2].map (fun g => g.score) :=
  (trending_sorted_by_score_only tieState 3000 7 20).2.2 _ _ (by decide) (by decide)
    (by decide) (by decide)

/-! ## Undo twice -/

theorem mostRecent_mem (l : List Swipe) (x : Swipe) (h : mostRecent l = some x) : x ∈ l := by
  induction l generalizing x with
  | nil => cases h
  | cons y ys ih =>
    unfold mostRecent at h
    cases hr : mostRecent ys with
    | none =>
      rw [hr] at h
      simp only [Option.some.injEq] at h
      rw [← h]
      exact List.mem_cons_self _ _
    | some t =>
      rw [hr] at h
      simp only at h
      split at h
      · simp only [Option.some.injEq] at h
        rw [← h]
        exact List.mem_cons_of_mem _ (ih t hr)
      · simp only [Option.some.injEq] at h
        rw [← h]
        exact List.mem_cons_self _ _

theorem findLastSwipe_mem (st : State) (u : Nat) (x : Swipe)
    (h : findLastSwipe st u = some x) : x ∈ st.swipes ∧ x.user = u := by
  have := List.mem_filter.mp (mostRecent_mem _ x h)
  exact ⟨this.1, by simpa using this.2⟩

theorem eraseP_id_ne (k : Nat) (l : List Swipe)
    (h : l.Pairwise (fun a b => a._id ≠ b._id)) :
    ∀ x ∈ l.eraseP (fun s => s._id == k), x._id ≠ k := by
  induction l with
  | nil => intro x hx; cases hx
  | cons y ys ih =>
    rw [List.pairwise_cons] at h
    intro x hx
    by_cases e : y._id = k
    · have e1 : (y._id == k) = true := by simpa using e
      rw [List.eraseP_cons, e1] at hx
      simp only [cond_true] at hx
      intro hk
      exact h.1 x hx (e.trans hk.symm)
    · have e1 : (y._id == k) = false := by simpa using e
      rw [List.eraseP_cons, e1] at hx
      simp only [cond_false] at hx
      rcases List.mem_cons.mp hx with rfl | hx2
      · exact e
      · exact ih h.2 x hx2

/-- The four outcomes of `undoLastSwipe` for an authenticated user. -/
theorem undoLastSwipe_outcome (st : State) (now : Int) (u : Nat) (user : User)
    (hauth : authenticate st u = .ok user) :
    (findLastSwipe st u = none ∧
      undoLastSwipe st now u = (st, .failure 400 "No swipes to undo")) ∨
    (∃ last, findLastSwipe st u = some last ∧ last.createdAt < now - 5 * 60 * 1000 ∧
      undoLastSwipe st now u = (st, .failure 400 "Swipe is too old to undo")) ∨
    (∃ last, findLastSwipe st u = some last ∧ ¬ last.createdAt < now - 5 * 60 * 1000 ∧
      findProductById st last.product = none ∧
      undoLastSwipe st now u = (findByIdAndDelete st last._id, internalError)) ∨
    (∃ last product, findLastSwipe st u = some last ∧
      ¬ last.createdAt < now - 5 * 60 * 1000 ∧
      findProductById st last.product = some product ∧
      undoLastSwipe st now u =
        (saveUser
          (saveProduct (findByIdAndDelete st last._id)
            (updateEngagement product (getEngagementType last.action) (-1)))
          (if isLikeAction last.action then
            { user with
              totalSwipes := max 0 (user.totalSwipes - 1)
              totalLikes := max 0 (user.totalLikes - 1) }
           else { user with totalSwipes := max 0 (user.totalSwipes - 1) }),
         .success 200 "Last swipe undone successfully" ⟨last, product⟩)) := by
  cases hl : findLastSwipe st u with
  | none =>
    left
    refine ⟨rfl, ?_⟩
    unfold undoLastSwipe
    simp only [hauth, hl]
    rfl
  | some last =>
    right
    by_cases hold : last.createdAt < now - 5 * 60 * 1000
    · left
      refine ⟨last, rfl, hold, ?_⟩
      unfold undoLastSwipe
      simp only [hauth, hl, hold, if_true]
      rfl
    · right
      cases hp : findProductById st last.product with
      | none =>
        left
        refine ⟨last, rfl, hold, hp, ?_⟩
        unfold undoLastSwipe
        simp only [hauth, hl, hold, if_false, hp]
      | some product =>
        right
        exact ⟨last, product, rfl, hold, hp,
          undoLastSwipe_done st now u user last product hauth hl hp hold⟩

/-- Counterexample to C19 as stated: user 1 holds a swipe of time 1000 and one
of time 400000; the undo at 400001 succeeds, and the second undo at 400002
fails with 'Swipe is too old to undo', deleting nothing. -/
theorem second_undo_can_be_too_old :
    (undoLastSwipe twoSwipesState 400001 1).2.isSuccess = true ∧
    undoLastSwipe (undoLastSwipe twoSwipesState 400001 1).1 400002 1
      = ((undoLastSwipe twoSwipesState 400001 1).1,
         .failure 400 "Swipe is too old to undo") ∧
    (undoLastSwipe twoSwipesState 400001 1).1.swipes.length = 1 := by
  decide

/-- C19 (undo twice, with the window): after a successful `undoLastSwipe` that
removed `last1`, a second `undoLastSwipe` by the same user either fails with
'No swipes to undo' (the user has no swipe left), or fails with 'Swipe is too
old to undo' (the user's new most recent swipe is older than five minutes),
both leaving the store unchanged, or deletes the user's new most recent swipe,
a record different from `last1`, answering 200 with that record when its
product is in the catalog. -/
theorem undo_twice (st : State) (now1 now2 : Int) (u : Nat) (wf : WellFormed st)
    (ok : (undoLastSwipe st now1 u).2.isSuccess = true) :
    ∃ last1, findLastSwipe st u = some last1 ∧
      ((findLastSwipe (undoLastSwipe st now1 u).1 u = none ∧
        undoLastSwipe (undoLastSwipe st now1 u).1 now2 u
          = ((undoLastSwipe st now1 u).1, .failure 400 "No swipes to undo")) ∨
       (∃ last2, findLastSwipe (undoLastSwipe st now1 u).1 u = some last2 ∧
        now2 - last2.createdAt > 5 * 60 * 1000 ∧
        undoLastSwipe (undoLastSwipe st now1 u).1 now2 u
          = ((undoLastSwipe st now1 u).1, .failure 400 "Swipe is too old to undo")) ∨
       (∃ last2, findLastSwipe (undoLastSwipe st now1 u).1 u = some last2 ∧
        last2._id ≠ last1._id ∧
        (undoLastSwipe (undoLastSwipe st now1 u).1 now2 u).1.swipes
          = (undoLastSwipe st now1 u).1.swipes.eraseP (fun s => s._id == last2._id) ∧
        (∀ product, findProductById (undoLastSwipe st now1 u).1 last2.product = some product →
          (undoLastSwipe (undoLastSwipe st now1 u).1 now2 u).2
            = .success 200 "Last swipe undone successfully" ⟨last2, product⟩))) := by
  cases hauth : authenticate st u with
  | error r =>
    have : undoLastSwipe st now1 u = (st, .failure r.1 r.2) := by
      unfold undoLastSwipe
      simp only [hauth]
    rw [this] at ok
    cases ok
  | ok user =>
    obtain ⟨hfu, hua, hub⟩ := authenticate_ok st u user hauth
    have huid := findUserById_id st u user hfu
    rcases undoLastSwipe_outcome st now1 u user hauth with ⟨_, h1⟩ | ⟨_, _, _, h1⟩ |
      ⟨_, _, _, _, h1⟩ | ⟨last1, product1, hl1, _, _, h1⟩
    · rw [h1] at ok; cases ok
    · rw [h1] at ok; cases ok
    · rw [h1] at ok; cases ok
    · refine ⟨last1, hl1, ?_⟩
      generalize hU : (if isLikeAction last1.action then
            ({ user with
              totalSwipes := max 0 (user.totalSwipes - 1)
              totalLikes := max 0 (user.totalLikes - 1) } : User)
           else { user with totalSwipes := max 0 (user.totalSwipes - 1) }) = user1 at h1
      have hU1 : user1._id = u ∧ user1.isActive = true ∧ user1.isBlocked = false := by
        rw [← hU]
        cases isLikeAction last1.action
        · exact ⟨huid, hua, hub⟩
        · exact ⟨huid, hua, hub⟩
      generalize hst1 : (undoLastSwipe st now1 u).1 = st1
      have e1 : st1 = saveUser
          (saveProduct (findByIdAndDelete st last1._id)
            (updateEngagement product1 (getEngagementType last1.action) (-1))) user1 := by
        rw [← hst1, h1]
      have hsw1 : st1.swipes = st.swipes.eraseP (fun s => s._id == last1._id) := by
        rw [e1]; rfl
      have hfu1 : findUserById st1 u = some user1 := by
        rw [e1]
        have := findUserById_saveUser
          (saveProduct (findByIdAndDelete st last1._id)
            (updateEngagement product1 (getEngagementType last1.action) (-1)))
          user user1 (by rw [hU1.1]; exact hfu)
        rw [hU1.1] at this
        exact this
      have hauth1 := authenticate_of_find st1 u user1 hfu1 hU1.2.1 hU1.2.2
      have hids : st.swipes.Pairwise (fun a b => a._id ≠ b._id) :=
        wf.1.imp (fun hab => hab.1)
      rcases undoLastSwipe_outcome st1 now2 u user1 hauth1 with ⟨hn, h2⟩ |
        ⟨last2, hl2, hold, h2⟩ | ⟨last2, hl2, _, hp2, h2⟩ |
        ⟨last2, product2, hl2, _, hp2, h2⟩
      · left
        exact ⟨hn, h2⟩
      · right; left
        exact ⟨last2, hl2, by omega, h2⟩
      · right; right
        refine ⟨last2, hl2, ?_, ?_, ?_⟩
        · have hm := (findLastSwipe_mem st1 u last2 hl2).1
          rw [hsw1] at hm
          exact eraseP_id_ne last1._id st.swipes hids last2 hm
        · rw [h2]; rfl
        · intro product hp
          rw [hp2] at hp
          cases hp
      · right; right
        refine ⟨last2, hl2, ?_, ?_, ?_⟩
        · have hm := (findLastSwipe_mem st1 u last2 hl2).1
          rw [hsw1] at hm
          exact eraseP_id_ne last1._id st.swipes hids last2 hm
        · rw [h2]; rfl
        · intro product hp
          rw [hp2] at hp
          cases hp
          rw [h2]

/-- Witness for C19: the two undos of `twoSwipesState`. -/
theorem undo_twice_witness :
    ∃ last1, findLastSwipe twoSwipesState 1 = some last1 ∧
      ((findLastSwipe (undoLastSwipe twoSwipesState 400001 1).1 1 = none ∧
        undoLastSwipe (undoLastSwipe twoSwipesState 400001 1).1 400002 1
          = ((undoLastSwipe twoSwipesState 400001 1).1, .failure 400 "No swipes to undo")) ∨
       (∃ last2, findLastSwipe (undoLastSwipe twoSwipesState 400001 1).1 1 = some last2 ∧
        400002 - last2.createdAt > 5 * 60 * 1000 ∧
        undoLastSwipe (undoLastSwipe twoSwipesState 400001 1).1 400002 1
          = ((undoLastSwipe twoSwipesState 400001 1).1,
             .failure 400 "Swipe is too old to undo")) ∨
       (∃ last2, findLastSwipe (undoLastSwipe twoSwipesState 400001 1).1 1 = some last2 ∧
        last2._id ≠ last1._id ∧
        (undoLastSwipe (undoLastSwipe twoSwipesState 400001 1).1 400002 1).1.swipes
          = (undoLastSwipe twoSwipesState 400001 1).1.swipes.eraseP
              (fun s => s._id == last2._id) ∧
        (∀ product,
          findProductById (undoLastSwipe twoSwipesState 400001 1).1 last2.product
            = some product →
          (undoLastSwipe (undoLastSwipe twoSwipesState 400001 1).1 400002 1).2
            = .success 200 "Last swipe undone successfully" ⟨last2, product⟩))) :=
  undo_twice twoSwipesState 400001 400002 1 (by decide) (by decide)

/-! ## History pages -/

/-- C20 (history pagination), evaluated: user 1 has three swipes (newest first
on products 3, 2, 1). With limit 2, page 1 is the swipes on products 3 and 2,
but page 2 is empty although the swipe on product 1 is at position 2; and page
1 of the like-filtered history is empty although it holds the like on product 1. -/
theorem history_pages_beyond_first_are_empty :
    (wholeHistory historyState 1 none).map (fun s => s.product) = [3, 2, 1] ∧
    (historyOf (getSwipeHistory historyState 1 (some 1) (some 2) none)).map
      (fun s => s.product) = [3, 2] ∧
    historyOf (getSwipeHistory historyState 1 (some 2) (some 2) none) = [] ∧
    (wholeHistory historyState 1 (some "like")).map (fun s => s.product) = [1] ∧
    historyOf (getSwipeHistory historyState 1 (some 1) (some 2) (some "like")) = [] := by
  decide

/-! ## Price range of the recommendations -/

/-- Counterexample to C21 as stated: user 1 carries the price range min 0,
max 0, and products priced 700, 900 and 500 are recommended. -/
theorem zero_max_price_is_ignored :
    (findUserById zeroMaxState 1).map (fun q => q.preferences)
      = some (some ⟨some ⟨some 0, some 0⟩⟩) ∧
    (recommendationsOf (getPersonalizedRecommendations zeroMaxState 1 none)).map
      (fun p => (p._id, p.priceCurrent)) = [(3, 700), (2, 900), (1, 500)] := by
  decide

/-- C21 (price-range filter, as the code applies it): for a user whose
preferences carry the price range min, max, every recommended product has
min <= price.current, and price.current <= max when max is not 0; a max of 0
counts as not set and the upper bound is 100000. -/
theorem recommendations_price_range (st : State) (u : Nat) (limit : Option Nat)
    (user : User) (mn mx : Int) (p : Product)
    (hauth : authenticate st u = .ok user)
    (hprefs : user.preferences = some ⟨some ⟨some mn, some mx⟩⟩)
    (hp : p ∈ recommendationsOf (getPersonalizedRecommendations st u limit)) :
    mn ≤ p.priceCurrent ∧ (mx ≠ 0 → p.priceCurrent ≤ mx) ∧
      (mx = 0 → p.priceCurrent ≤ 100000) := by
  obtain ⟨user2, hauth2, _, hq⟩ := recommendations_match_query st u limit p hp
  rw [hauth] at hauth2
  cases hauth2
  unfold matchesQuery at hq
  rw [hprefs] at hq
  simp only [Option.bind, Bool.and_eq_true, decide_eq_true_eq] at hq
  obtain ⟨_, hlo, hhi⟩ := hq
  refine ⟨?_, ?_, ?_⟩
  · unfold orNumber at hlo
    simp only at hlo
    split at hlo
    · omega
    · exact hlo
  · intro hne
    unfold orNumber at hhi
    simp only [hne, if_false] at hhi
    exact hhi
  · intro he
    unfold orNumber at hhi
    simp only [he, if_true] at hhi
    exact hhi

/-- Witness for C21: user 1 of `rangeState` carries the range 600 to 800 and is
recommended product 3, priced 700. -/
theorem recommendations_price_range_witness :
    (600 : Int) ≤ 700 ∧ ((800 : Int) ≠ 0 → (700 : Int) ≤ 800) ∧
      ((800 : Int) = 0 → (700 : Int) ≤ 100000) :=
  recommendations_price_range rangeState 1 none
    { firstUser with preferences := some ⟨some ⟨some 600, some 800⟩⟩ } 600 800
    { _id := 3, brand := "acme", category := "tops", colors := [], priceCurrent := 700,
      isActive := true, inStock := true, totalViews := 0, totalLikes := 0,
      totalDislikes := 0, totalWishlisted := 0, createdAt := 20 }
    rfl rfl (by decide)

/-! ## Undo: missing product and frame -/

/-- C22 (missing product is non-fatal for undo), evaluated: the most recent
swipe of user 1 is inside the window and its product is gone from the catalog;
`undoLastSwipe` deletes the swipe, then fails with status 500, and the user's
totalSwipes and totalLikes are not decremented. -/
theorem undo_with_missing_product_fails :
    (findLastSwipe orphanState 1).map (fun s => (s.product, s.action, s.createdAt))
      = some (1, "like", 1000) ∧
    findProductById orphanState 1 = none ∧
    (undoLastSwipe orphanState 2000 1).2 = internalError ∧
    (undoLastSwipe orphanState 2000 1).2.status = 500 ∧
    (undoLastSwipe orphanState 2000 1).1.swipes = [] ∧
    (findUserById orphanState 1).map (fun q => (q.totalSwipes, q.totalLikes))
      = some (1, 1) ∧
    (findUserById (undoLastSwipe orphanState 2000 1).1 1).map
      (fun q => (q.totalSwipes, q.totalLikes)) = some (1, 1) := by
  decide

theorem mostRecent_max (l : List Swipe) (x : Swipe) (h : mostRecent l = some x) :
    ∀ s ∈ l, s.createdAt ≤ x.createdAt := by
  induction l generalizing x with
  | nil => intro s hs; cases hs
  | cons y ys ih =>
    unfold mostRecent at h
    cases hr : mostRecent ys with
    | none =>
      rw [hr] at h
      simp only [Option.some.injEq] at h
      subst h
      intro s hs
      rcases List.mem_cons.mp hs with rfl | hs2
      · exact le_refl _
      · cases ys with
        | nil => cases hs2
        | cons z zs =>
          exfalso
          unfold mostRecent at hr
          split at hr
          · cases hr
          · split at hr <;> cases hr
    | some t =>
      rw [hr] at h
      simp only at h
      have iht := ih t hr
      split at h
      · rename_i hlt
        simp only [Option.some.injEq] at h
        subst h
        intro s hs
        rcases List.mem_cons.mp hs with rfl | hs2
        · exact le_of_lt hlt
        · exact iht s hs2
      · rename_i hge
        simp only [Option.some.injEq] at h
        subst h
        intro s hs
        rcases List.mem_cons.mp hs with rfl | hs2
        · exact le_refl _
        · exact le_trans (iht s hs2) (not_lt.mp hge)

/-- C23 (undo deletes only the most recent swipe): in a store with unique swipe
ids, whenever `undoLastSwipe` answers 200 for user `u`, the returned
`undoneSwipe` is a stored record of `u` whose createdAt is greatest among the
records of `u`, and the ledger afterwards is the old ledger with exactly that
one record taken out: every other record is still there, unchanged and in the
same order. -/
theorem undo_removes_only_last (st : State) (now : Int) (u : Nat) (wf : WellFormed st)
    (message : String) (data : UndoData)
    (ok : (undoLastSwipe st now u).2 = .success 200 message data) :
    data.undoneSwipe ∈ st.swipes ∧ data.undoneSwipe.user = u ∧
    findLastSwipe st u = some data.undoneSwipe ∧
    (∀ s ∈ st.swipes, s.user = u → s.createdAt ≤ data.undoneSwipe.createdAt) ∧
    ∃ l₁ l₂, st.swipes = l₁ ++ data.undoneSwipe :: l₂ ∧
      (undoLastSwipe st now u).1.swipes = l₁ ++ l₂ ∧
      data.undoneSwipe ∉ l₁ ++ l₂ := by
  cases hauth : authenticate st u with
  | error r =>
    have : undoLastSwipe st now u = (st, .failure r.1 r.2) := by
      unfold undoLastSwipe
      simp only [hauth]
    rw [this] at ok
    cases ok
  | ok user =>
    rcases undoLastSwipe_outcome st now u user hauth with ⟨_, h1⟩ | ⟨_, _, _, h1⟩ |
      ⟨_, _, _, _, h1⟩ | ⟨last, product, hl, _, _, h1⟩
    · rw [h1] at ok; cases ok
    · rw [h1] at ok; cases ok
    · rw [h1] at ok; cases ok
    · rw [h1] at ok ⊢
      simp only [Response.success.injEq] at ok
      obtain ⟨_, _, hdata⟩ := ok
      subst hdata
      obtain ⟨hmem, huser⟩ := findLastSwipe_mem st u last hl
      have hids : st.swipes.Pairwise (fun a b => a._id ≠ b._id) :=
        wf.1.imp (fun hab => hab.1)
      refine ⟨hmem, huser, hl, ?_, ?_⟩
      · intro s hs hsu
        exact mostRecent_max _ last hl s
          (List.mem_filter.mpr ⟨hs, by simpa using hsu⟩)
      · obtain ⟨a, l₁, l₂, _, hpa, hsplit, herase⟩ :=
          List.exists_of_eraseP (p := fun s : Swipe => s._id == last._id) hmem (by simp)
        have ha : a ∈ st.swipes := by rw [hsplit]; simp
        have hal : a = last :=
          eq_of_id_eq st wf a last ha hmem (by simpa using hpa)
        subst hal
        refine ⟨l₁, l₂, hsplit, herase, ?_⟩
        intro hin
        have hne := eraseP_id_ne a._id st.swipes hids a (by rw [herase]; exact hin)
        exact hne rfl

/-- Witness for C23: the undo of user 1 in `twoSwipesState` at time 400001. -/
theorem undo_removes_only_last_witness :
    (newSwipe 1 400000 1 2 "like" noContext noHeaders) ∈ twoSwipesState.swipes ∧
    ∃ l₁ l₂, twoSwipesState.swipes
        = l₁ ++ (newSwipe 1 400000 1 2 "like" noContext noHeaders) :: l₂ ∧
      (undoLastSwipe twoSwipesState 400001 1).1.swipes = l₁ ++ l₂ ∧
      (newSwipe 1 400000 1 2 "like" noContext noHeaders) ∉ l₁ ++ l₂ := by
  have h := undo_removes_only_last twoSwipesState 400001 1 (by decide)
    "Last swipe undone successfully"
    ⟨newSwipe 1 400000 1 2 "like" noContext noHeaders,
     { _id := 2, brand := "acme", category := "bags", colors := [], priceCurrent := 900,
       isActive := true, inStock := true, totalViews := 0, totalLikes := 1,
       totalDislikes := 0, totalWishlisted := 0, createdAt := 10 }⟩
    (by decide)
  exact ⟨h.1, h.2.2.2.2⟩

/-! ## Rate limit -/

theorem rate_in_window (maxAttempts : Nat) (windowMs : Int) (key : String) (ts : List Int) :
    ∀ (attempts : String → Option Attempt) (a : Attempt), attempts key = some a →
      (∀ t ∈ ts, t ≤ a.resetTime) →
      (rateOutcomes maxAttempts windowMs attempts key ts).map RateOutcome.passed =
        List.replicate (min ts.length (maxAttempts - a.count)) true ++
          List.replicate (ts.length - (maxAttempts - a.count)) false := by
  induction ts with
  | nil => intro attempts a _ _; simp [rateOutcomes]
  | cons t rest ih =>
    intro attempts a ha hts
    have ht : ¬ t > a.resetTime := not_lt.mpr (hts t (List.mem_cons_self _ _))
    have hrest : ∀ s ∈ rest, s ≤ a.resetTime := fun s hs => hts s (List.mem_cons_of_mem _ hs)
    by_cases hfull : a.count ≥ maxAttempts
    · have hstep : authRateLimit maxAttempts windowMs attempts key t =
          (attempts, .tooMany ((a.resetTime - t + 999) / 1000)) := by
        unfold authRateLimit
        simp only [ha, ht, if_false, hfull, if_true]
      have h0 : maxAttempts - a.count = 0 := by omega
      have := ih attempts a ha hrest
      rw [h0] at this ⊢
      simp only [rateOutcomes, hstep, List.map_cons, this, RateOutcome.passed]
      simp [List.replicate_succ]
    · have hstep : authRateLimit maxAttempts windowMs attempts key t =
          (setAttempt attempts key ⟨a.count + 1, a.resetTime⟩, .next) := by
        unfold authRateLimit
        simp only [ha, ht, if_false, hfull]
      have hkey : setAttempt attempts key ⟨a.count + 1, a.resetTime⟩ key =
          some ⟨a.count + 1, a.resetTime⟩ := by
        simp [setAttempt]
      have := ih (setAttempt attempts key ⟨a.count + 1, a.resetTime⟩)
        ⟨a.count + 1, a.resetTime⟩ hkey hrest
      simp only [rateOutcomes, hstep, List.map_cons, this, RateOutcome.passed]
      have e1 : min (rest.length + 1) (maxAttempts - a.count)
          = min rest.length (maxAttempts - (a.count + 1)) + 1 := by omega
      have e2 : rest.length + 1 - (maxAttempts - a.count)
          = rest.length - (maxAttempts - (a.count + 1)) := by omega
      simp only [List.length_cons, e1, e2, List.replicate_succ, List.cons_append]

/-- Counterexample to C24 as stated: with `authRateLimit(3, 900000)` and one
key, six requests at the times 0, 899998, 899999, 900001, 900002 and 900003 are
all passed on; the last five lie in an interval of 5 ms. -/
theorem rate_limit_lets_five_pass_in_one_interval :
    (rateOutcomes 3 900000 noAttempts (rateKey "10.0.0.1" (some "9876543210"))
      [0, 899998, 899999, 900001, 900002, 900003]).map RateOutcome.passed
      = [true, true, true, true, true, true] := by
  decide

/-- C24 (rate limit, as the code counts): the limiter keeps one fixed window
per key. The request that finds no entry for its key is passed on and opens the
window up to `t0 + windowMs`; of the further requests up to that time the first
`maxAttempts - 1` are passed on and every later one is answered 429. A request
that arrives after `resetTime` is passed on and opens a new window. -/
theorem rate_limit_fixed_window (maxAttempts : Nat) (windowMs : Int)
    (attempts : String → Option Attempt) (key : String) (t0 : Int) (rest : List Int)
    (hfresh : attempts key = none) (hwin : ∀ t ∈ rest, t ≤ t0 + windowMs) :
    (rateOutcomes maxAttempts windowMs attempts key (t0 :: rest)).map RateOutcome.passed =
      true :: (List.replicate (min rest.length (maxAttempts - 1)) true ++
        List.replicate (rest.length - (maxAttempts - 1)) false) ∧
    (∀ (later : String → Option Attempt) (a : Attempt) (now : Int),
      later key = some a → now > a.resetTime →
      authRateLimit maxAttempts windowMs later key now =
        (setAttempt later key ⟨1, now + windowMs⟩, .next)) := by
  constructor
  · have hstep : authRateLimit maxAttempts windowMs attempts key t0 =
        (setAttempt attempts key ⟨1, t0 + windowMs⟩, .next) := by
      unfold authRateLimit
      simp only [hfresh]
    have hkey : setAttempt attempts key ⟨1, t0 + windowMs⟩ key = some ⟨1, t0 + windowMs⟩ := by
      simp [setAttempt]
    have := rate_in_window maxAttempts windowMs key rest
      (setAttempt attempts key ⟨1, t0 + windowMs⟩) ⟨1, t0 + windowMs⟩ hkey hwin
    simp only [rateOutcomes, hstep, List.map_cons, this, RateOutcome.passed]
  · intro later a now ha hnow
    unfold authRateLimit
    simp only [ha, hnow, if_true]

/-- Witness for C24: five requests inside the first window of
`authRateLimit(3, 900000)`. -/
theorem rate_limit_fixed_window_witness :
    (rateOutcomes 3 900000 noAttempts "k" [0, 1, 2, 3, 900000]).map RateOutcome.passed
      = true :: (List.replicate (min 4 (3 - 1)) true ++ List.replicate (4 - (3 - 1)) false) :=
  (rate_limit_fixed_window 3 900000 noAttempts "k" 0 [1, 2, 3, 900000] rfl (by decide)).1

/-! ## Phone numbers -/

/-- C25 (phone validation), evaluated: the string 12345678 has only 8 digits
and `isValidPhoneNumber` accepts it, because the second test prefixes 91 and
the resulting ten digits start with 9; a ten-digit number starting with 1 is
rejected. -/
theorem eight_digits_are_accepted :
    (digitsOf "12345678").length = 8 ∧
    phoneRegexTest (digitsOf "12345678") = false ∧
    phoneRegexTest ('9' :: '1' :: digitsOf "12345678") = true ∧
    isValidPhoneNumber "12345678" = true ∧
    isValidPhoneNumber "1234567890" = false ∧
    isValidPhoneNumber "+91 98765 43210" = true := by
  decide

theorem digitsOf_digits (l : List Char) :
    (l.filter Char.isDigit).filter Char.isDigit = l.filter Char.isDigit := by
  rw [List.filter_filter]
  congr 1
  funext c
  simp

/-- C29 (formatPhoneNumber): applying `formatPhoneNumber` twice gives the same
string as applying it once, and a string with exactly 10 digit characters is
formatted as +91 followed by those digits. -/
theorem formatPhoneNumber_idempotent (p : String) :
    formatPhoneNumber (formatPhoneNumber p) = formatPhoneNumber p ∧
    ((digitsOf p).length = 10 → formatPhoneNumber p = ⟨'+' :: '9' :: '1' :: digitsOf p⟩) := by
  have hplus : Char.isDigit '+' = false := by decide
  have h9 : Char.isDigit '9' = true := by decide
  have h1 : Char.isDigit '1' = true := by decide
  have hd := digitsOf_digits p.data
  constructor
  · by_cases c1 : (digitsOf p).length = 10
    · have e : formatPhoneNumber p = ⟨'+' :: '9' :: '1' :: digitsOf p⟩ := by
        unfold formatPhoneNumber
        simp only [c1, if_true]
      have ed : digitsOf ⟨'+' :: '9' :: '1' :: digitsOf p⟩ = '9' :: '1' :: digitsOf p := by
        unfold digitsOf
        simp only [List.filter_cons, hplus, h9, h1, if_true, hd]
        simp
      rw [e]
      unfold formatPhoneNumber
      simp only [ed, List.length_cons, c1]
      simp
    · by_cases c2 : (digitsOf p).length = 12 ∧ (digitsOf p).take 2 = ['9', '1']
      · have e : formatPhoneNumber p = ⟨'+' :: digitsOf p⟩ := by
          simp only [formatPhoneNumber]
          rw [if_neg c1, if_pos c2]
        have ed : digitsOf ⟨'+' :: digitsOf p⟩ = digitsOf p := by
          unfold digitsOf
          simp only [List.filter_cons, hplus, hd]
          simp
        rw [e]
        simp only [formatPhoneNumber, ed]
        rw [if_neg c1, if_pos c2]
      · by_cases c3 : (digitsOf p).length = 13 ∧ (digitsOf p).take 3 = ['+', '9', '1']
        · have e : formatPhoneNumber p = ⟨digitsOf p⟩ := by
            simp only [formatPhoneNumber]
            rw [if_neg c1, if_neg c2, if_pos c3]
          have ed : digitsOf ⟨digitsOf p⟩ = digitsOf p := by
            unfold digitsOf
            exact hd
          rw [e]
          simp only [formatPhoneNumber, ed]
          rw [if_neg c1, if_neg c2, if_pos c3]
        · have e : formatPhoneNumber p = p := by
            simp only [formatPhoneNumber]
            rw [if_neg c1, if_neg c2, if_neg c3]
          rw [e, e]
  · intro c1
    unfold formatPhoneNumber
    simp only [c1, if_true]

/-- Witness for C29: a ten-digit number written with a dash. -/
theorem formatPhoneNumber_idempotent_witness :
    formatPhoneNumber "98765-43210" = ⟨'+' :: '9' :: '1' :: digitsOf "98765-43210"⟩ :=
  (formatPhoneNumber_idempotent "98765-43210").2 (by decide)

/-! ## Sanitisation -/

/-- C26 (deep sanitisation), evaluated: `sanitizeObject` is total, and for the
body whose `items` array holds an object with the string `<b>x</b>` the result
still contains angle brackets; the same string directly under a key of the
body, or directly inside an array, is cleaned. -/
theorem sanitize_misses_objects_in_arrays :
    (sanitizeObject nestedBody).hasAngle = true ∧
    (sanitizeObject (.obj (.cons "name" (.str "<b>x</b>") .nil))).hasAngle = false ∧
    (sanitizeObject
      (.obj (.cons "tags" (.arr (.cons (.str "<b>x</b>") .nil)) .nil))).hasAngle = false ∧
    (sanitizeObject
      (.obj (.cons "a" (.obj (.cons "name" (.str "<b>x</b>") .nil)) .nil))).hasAngle
        = false := by
  decide

/-! ## Wishlist items -/

/-- C27 (wishlist has no duplicates), evaluated: product 7 is added to an
empty wishlist with its id written in lower case and then with the same id
written in upper case. The second `addItem` does not find the stored item and
pushes another one for product 7; right after `addItem` with the upper-case
text `hasProduct` with that text is false, also on an empty wishlist, and
`removeItem` with that text removes nothing. With the lower-case text the
second `addItem` keeps one item. -/
theorem upper_case_id_is_added_twice :
    (((⟨1, []⟩ : Wishlist).callAll
      [.addItem 10 ⟨7, true⟩ noOptions, .addItem 20 ⟨7, false⟩ noOptions]).items.map
        (fun item => item.product)) = [7, 7] ∧
    (((⟨1, []⟩ : Wishlist).callAll
      [.addItem 10 ⟨7, false⟩ noOptions, .addItem 20 ⟨7, false⟩ noOptions]).items.map
        (fun item => item.product)) = [7, 7] ∧
    ((⟨1, []⟩ : Wishlist).addItem 10 ⟨7, false⟩ noOptions).hasProduct ⟨7, false⟩ = false ∧
    ((((⟨1, []⟩ : Wishlist).addItem 10 ⟨7, true⟩ noOptions).removeItem ⟨7, false⟩).items.map
        (fun item => item.product)) = [7] ∧
    (((⟨1, []⟩ : Wishlist).callAll
      [.addItem 10 ⟨7, true⟩ noOptions, .addItem 20 ⟨7, true⟩ noOptions]).items.map
        (fun item => item.product)) = [7] ∧
    ((⟨1, []⟩ : Wishlist).addItem 10 ⟨7, true⟩ noOptions).hasProduct ⟨7, true⟩ = true := by
  decide

/-- C28 (wishlist counter tracks membership), evaluated: from the store where
product 1 is in no wishlist and has totalWishlisted = 0, two successful
`addToWishlist` calls of user 1 for product 1 leave one item in the wishlist
and totalWishlisted = 2; a following `removeFromWishlist` empties the wishlist
and leaves totalWishlisted = 1. -/
theorem wishlist_counter_counts_every_add :
    findWishlist initialState 1 = none ∧
    (findProductById initialState 1).map (fun q => q.totalWishlisted) = some 0 ∧
    allSucceed initialState addTwice = true ∧
    (findWishlist (serveAll initialState addTwice) 1).map
      (fun w => w.items.map (fun item => item.product)) = some [1] ∧
    (findProductById (serveAll initialState addTwice) 1).map (fun q => q.totalWishlisted)
      = some 2 ∧
    allSucceed initialState (addTwice ++ [(3000, .removeFromWishlist 1 1)]) = true ∧
    (findWishlist (serveAll initialState (addTwice ++ [(3000, .removeFromWishlist 1 1)])) 1).map
      (fun w => w.hasProduct 1) = some false ∧
    (findProductById
      (serveAll initialState (addTwice ++ [(3000, .removeFromWishlist 1 1)])) 1).map
      (fun q => q.totalWishlisted) = some 1 := by
  decide

/-! ## The transition helper -/

theorem isLikeAction_iff (a : String) :
    isLikeAction a = true ↔ (a = "like" ∨ a = "super_like") := by
  simp [isLikeAction]

theorem not_dislike_of_like (a : String) (h : isLikeAction a = true) : ¬ a = "dislike" := by
  intro e
  subst e
  exact absurd h (by decide)

theorem decrement_old (product : Product) (old : String)
    (hL : 0 ≤ product.totalLikes) (hD : 0 ≤ product.totalDislikes) :
    (if isLikeAction old = true then
        { product with totalLikes := max 0 (product.totalLikes - 1) }
      else if old = "dislike" then
        { product with totalDislikes := max 0 (product.totalDislikes - 1) }
      else product) =
    { product with
      totalLikes :=
        max 0 (product.totalLikes - (if old = "like" ∨ old = "super_like" then 1 else 0))
      totalDislikes :=
        max 0 (product.totalDislikes - (if old = "dislike" then 1 else 0)) } := by
  have e0L : max 0 (product.totalLikes - 0) = product.totalLikes := by
    rw [sub_zero]; exact max_eq_right hL
  have e0D : max 0 (product.totalDislikes - 0) = product.totalDislikes := by
    rw [sub_zero]; exact max_eq_right hD
  cases hlo : isLikeAction old with
  | true =>
    have h1 := (isLikeAction_iff old).mp hlo
    have h2 := not_dislike_of_like old hlo
    simp only [if_true, if_pos h1, if_neg h2, e0D]
  | false =>
    have h1 : ¬ (old = "like" ∨ old = "super_like") := fun h =>
      absurd ((isLikeAction_iff old).mpr h) (by rw [hlo]; decide)
    by_cases h2 : old = "dislike"
    · simp only [Bool.false_eq_true, if_false, if_neg h1, if_pos h2, e0L]
    · simp only [Bool.false_eq_true, if_false, if_neg h1, if_neg h2, e0L, e0D]

theorem increment_new (product : Product) (new : String) :
    (if isLikeAction new = true then { product with totalLikes := product.totalLikes + 1 }
      else if new = "dislike" then
        { product with totalDislikes := product.totalDislikes + 1 }
      else product) =
    { product with
      totalLikes :=
        product.totalLikes + (if new = "like" ∨ new = "super_like" then 1 else 0)
      totalDislikes := product.totalDislikes + (if new = "dislike" then 1 else 0) } := by
  cases hln : isLikeAction new with
  | true =>
    have h1 := (isLikeAction_iff new).mp hln
    have h2 := not_dislike_of_like new hln
    simp only [if_true, if_pos h1, if_neg h2, add_zero]
  | false =>
    have h1 : ¬ (new = "like" ∨ new = "super_like") := fun h =>
      absurd ((isLikeAction_iff new).mpr h) (by rw [hln]; decide)
    by_cases h2 : new = "dislike"
    · simp only [Bool.false_eq_true, if_false, if_neg h1, if_pos h2, add_zero]
    · simp only [Bool.false_eq_true, if_false, if_neg h1, if_neg h2, add_zero]

/-- C30 (transition helper): on an existing product with non-negative
counters L and D, `updateProductEngagement(productId, old, new)` stores the
product with totalLikes = max(0, L - [old is like or super_like]) + [new is
like or super_like] and totalDislikes = max(0, D - [old is dislike]) + [new is
dislike], every other field as before, so both counters stay >= 0; when the
product does not exist the store is unchanged. -/
theorem updateProductEngagement_effect (st : State) (p : Nat) (old new : String) :
    (∀ product, findProductById st p = some product →
      0 ≤ product.totalLikes → 0 ≤ product.totalDislikes →
      findProductById (updateProductEngagement st p old new) p = some
        { product with
          totalLikes :=
            max 0 (product.totalLikes - (if old = "like" ∨ old = "super_like" then 1 else 0))
              + (if new = "like" ∨ new = "super_like" then 1 else 0)
          totalDislikes :=
            max 0 (product.totalDislikes - (if old = "dislike" then 1 else 0))
              + (if new = "dislike" then 1 else 0) } ∧
      0 ≤ max 0 (product.totalLikes - (if old = "like" ∨ old = "super_like" then 1 else 0))
              + (if new = "like" ∨ new = "super_like" then 1 else 0) ∧
      0 ≤ max 0 (product.totalDislikes - (if old = "dislike" then 1 else 0))
              + (if new = "dislike" then 1 else 0)) ∧
    (findProductById st p = none → updateProductEngagement st p old new = st) := by
  constructor
  · intro product hprod hL hD
    have hpid := findProductById_id st p product hprod
    refine ⟨?_, ?_, ?_⟩
    · unfold updateProductEngagement
      simp only [hprod]
      rw [decrement_old product old hL hD, increment_new]
      have := findProductById_saveProduct st product
        { product with
          totalLikes :=
            max 0 (product.totalLikes - (if old = "like" ∨ old = "super_like" then 1 else 0))
              + (if new = "like" ∨ new = "super_like" then 1 else 0)
          totalDislikes :=
            max 0 (product.totalDislikes - (if old = "dislike" then 1 else 0))
              + (if new = "dislike" then 1 else 0) }
        (by rw [← hprod]; simp only [hpid])
      simpa only [hpid] using this
    · split <;> split <;> omega
    · split <;> split <;> omega
  · intro hnone
    unfold updateProductEngagement
    simp only [hnone]

/-- Witness for C30: the stored dislike counter of product 1 in `dislikedState`
under a transition from dislike to like. -/
theorem updateProductEngagement_effect_witness :
    (findProductById (updateProductEngagement dislikedState 1 "dislike" "like") 1).map
      (fun q => (q.totalLikes, q.totalDislikes)) = some (1, 0) := by
  have h := (updateProductEngagement_effect dislikedState 1 "dislike" "like").1
    { _id := 1, brand := "acme", category := "tops", colors := ["red"], priceCurrent := 500,
      isActive := true, inStock := true, totalViews := 0, totalLikes := 0,
      totalDislikes := 1, totalWishlisted := 0, createdAt := 0 }
    (by decide) (by decide) (by decide)
  rw [h.1]
  decide

end Casa
